import Mathlib

/-!
Verification development for the Skooli relevance-ranking engine
(`src/lib/curriculum-data.ts`) and its generation quality-retry controller
(the Gemini API route).  The TypeScript functions are shallowly embedded as
executable Lean definitions: strings as `String` / `List Char`, JavaScript
numbers as exact rationals (`ℚ`), attempt counters and lengths as `Nat`,
and the injected asynchronous generation callable as a map from attempt
index to an `Except` outcome.
-/

namespace Skooli

/-- Character-level model of JavaScript `toLowerCase` on the ASCII range,
which covers every character the embedded corpus and rubric compare
case-insensitively (the Swedish letters in the corpus are already stored
lower-case wherever they are matched). -/
def charLower (c : Char) : Char :=
  if 'A' ≤ c ∧ c ≤ 'Z' then Char.ofNat (c.toNat + 32) else c

/-- Lower-cased character list of a string, modelling `s.toLowerCase()`
followed by character-level processing. -/
def low (s : String) : List Char := s.toList.map charLower

/-- Whitespace class of JavaScript regular expressions (`\s`), restricted to
the ASCII whitespace characters that occur in the embedded corpus and
queries. -/
def isWs (c : Char) : Bool :=
  c = ' ' || c = '\t' || c = '\n' || c = '\r' || c = '\x0b' || c = '\x0c'

/-- Boolean test that `p` is a prefix of the second list, mirroring the
character comparison `String.prototype.includes` performs at one candidate
position. -/
def prefB : List Char → List Char → Bool
  | [], _ => true
  | _ :: _, [] => false
  | a :: as, b :: bs => a == b && prefB as bs

/-- JavaScript `Math.min` on two numbers, as an explicit conditional. -/
def qMin (a b : ℚ) : ℚ := if a ≤ b then a else b

/-- JavaScript `Math.max` on two numbers, as an explicit conditional. -/
def qMax (a b : ℚ) : ℚ := if a ≤ b then b else a

/-- Model of `hay.includes(needle)` on character lists (true for the empty
needle, as in JavaScript). -/
def containsB (hay needle : List Char) : Bool :=
  match hay with
  | [] => needle.isEmpty
  | _ :: t => prefB needle hay || containsB t needle

/-- Fuel-driven scanner for `splitWs`; `acc` holds the current token
reversed, and each step consumes at least one character, so fuel equal to
the input length suffices. -/
def splitWsAux : Nat → List Char → List Char → List (List Char)
  | _, [], acc => [acc.reverse]
  | 0, _ :: _, acc => [acc.reverse]
  | fuel + 1, c :: rest, acc =>
    if isWs c then acc.reverse :: splitWsAux fuel (rest.dropWhile isWs) []
    else splitWsAux fuel rest (c :: acc)

/-- Model of `s.split(/\s+/)` on character lists: splits at maximal
whitespace runs, keeping the empty token JavaScript produces before a
leading run and after a trailing run. -/
def splitWs (s : List Char) : List (List Char) :=
  splitWsAux s.length s []

/-- Digit-run reader backing the `parseInt` model: reads the leading decimal
digits, `none` when the first character is not a digit. -/
def parseDigits (cs : List Char) : Option Nat :=
  let ds := cs.takeWhile (fun c => c.isDigit)
  if ds.isEmpty then none
  else some (ds.foldl (fun n c => 10 * n + (c.toNat - 48)) 0)

/-- Model of JavaScript `parseInt(s)` with radix 10: skip leading
whitespace, accept an optional sign, parse the leading digit run, `none`
playing the role of `NaN`. -/
def parseIntJS (s : String) : Option Int :=
  match s.toList.dropWhile isWs with
  | '-' :: rest => (parseDigits rest).map (fun n => -(n : Int))
  | '+' :: rest => (parseDigits rest).map (fun n => (n : Int))
  | cs => (parseDigits cs).map (fun n => (n : Int))

/-- Model of `Array.prototype.join(sep)`. -/
def joinSep (sep : String) : List String → String
  | [] => ""
  | [x] => x
  | x :: xs => x ++ sep ++ joinSep sep xs

/-- Fuel-driven scanner counting the non-overlapping occurrences reported by
`hay.match(/pat/g)` for a literal pattern; `countOccur` supplies enough
fuel for the whole haystack. -/
def countOccurAux (needle : List Char) : Nat → List Char → Nat
  | 0, _ => 0
  | _ + 1, [] => 0
  | fuel + 1, c :: t =>
    if !needle.isEmpty && prefB needle (c :: t) then
      countOccurAux needle fuel ((c :: t).drop needle.length) + 1
    else countOccurAux needle fuel t

/-- Model of `(hay.match(/pat/g) || []).length` for a literal self-overlap
free pattern such as `Lgr22`. -/
def countOccur (hay needle : List Char) : Nat :=
  countOccurAux needle hay.length hay

/-- Embedding of the `CurriculumDocument` interface of
`src/lib/curriculum-data.ts`: the base fields present on every stored
document.  The optional per-query score fields of the TypeScript interface
live on `ScoredDocument`, which is only ever created transiently by
`findRelevantCurriculum`. -/
structure CurriculumDocument where
  id : Nat
  subject : String
  grades : List String
  keywords : List String
  content : String
  source : String
  activities : List String
  conceptTags : List String
  pedagogicalLevel : String
  crossCurricularLinks : List String
deriving DecidableEq, Repr

/-- Transcription of the module-level `curriculumData` array of
`src/lib/curriculum-data.ts`: the in-memory, read-only corpus of 17 Lgr22
reference documents. -/
def curriculumData : List CurriculumDocument := [
  { id := 1,
    subject := "Naturorienterande ämnen",
    grades := ["förskoleklass", "1", "2", "3"],
    keywords := ["djur", "habitat", "livsmiljö", "djurarter", "vilda djur", "husdjur", "fåglar", "fiskar", "insekter"],
    content := "Eleverna ska utveckla kunskaper om olika djurarter och deras livsmiljöer. Centralt innehåll omfattar djurs olika behov, hur de rör sig och var de lever. Förmågor inkluderar att kunna observera och beskriva djurs egenskaper och beteenden.",
    source := "Lgr22 - Naturorienterande ämnen, centralt innehåll årskurs 1-3",
    activities := [
      "Djurobservationer i närområdet med luppar och kikare",
      "Skapa djurkort med bilder och fakta om olika arter",
      "Bygga fågelholk och studera fågelbesök",
      "Djurspårning och avtryck i lera",
      "Besök på zoo eller naturum för djurstudier",
      "Dramatisera djurs rörelser och ljud"],
    conceptTags := ["biologi", "ekologi", "observation", "klassificering"],
    pedagogicalLevel := "concrete",
    crossCurricularLinks := ["Svenska (berättelser om djur)", "Bild och form (djurteckning)", "Matematik (räkning av djur)"] },
  { id := 2,
    subject := "Naturorienterande ämnen",
    grades := ["3", "4", "5", "6"],
    keywords := ["rymden", "planeter", "solsystem", "stjärnor", "astronomi", "månen", "jorden", "universum"],
    content := "Eleverna ska utveckla förståelse för jorden som en planet i solsystemet och universums uppbyggnad. Centralt innehåll inkluderar planeternas egenskaper, månfaser och stjärnbilder. Förmågor omfattar att använda modeller för att förklara astronomiska fenomen.",
    source := "Lgr22 - Naturorienterande ämnen, centralt innehåll årskurs 4-6",
    activities := [
      "Bygga modell av solsystemet med olika material",
      "Stjärnkikande och identifiering av stjärnbilder",
      "Simulera månfaser med lampa och bollar",
      "Skapa rymdutställning med planetfakta",
      "Besök på planetarium eller rymdobservatorium",
      "Designa och bygga egna rymdraketer"],
    conceptTags := ["astronomi", "fysik", "modellering", "reflektion"],
    pedagogicalLevel := "mixed",
    crossCurricularLinks := ["Matematik (avstånd och storlekar)", "Teknik (raketbygge)", "Svenska (science fiction-berättelser)"] },
  { id := 3,
    subject := "Samhällsorienterande ämnen",
    grades := ["4", "5", "6"],
    keywords := ["miljö", "hållbarhet", "återvinning", "klimat", "naturresurser", "föroreningar", "miljöpåverkan"],
    content := "Eleverna ska utveckla kunskaper om miljöfrågor och hållbar utveckling. Centralt innehåll behandlar människans påverkan på miljön och åtgärder för hållbarhet. Förmågor inkluderar att analysera miljöproblem och föreslå lösningar.",
    source := "Lgr22 - Samhällsorienterande ämnen, centralt innehåll årskurs 4-6",
    activities := [
      "Miljöaudit av skolan och förslag på förbättringar",
      "Sorteringsstation för återvinning i klassrummet",
      "Odla egna grönsaker i skolträdgården",
      "Undersöka vattenföroreningar i närområdet",
      "Skapa kampanj för miljömedvetenhet",
      "Besök på återvinningsanläggning"],
    conceptTags := ["hållbarhet", "miljövetenskap", "samhällsansvar", "kritiskt tänkande"],
    pedagogicalLevel := "mixed",
    crossCurricularLinks := ["Naturorienterande ämnen (ekosystem)", "Svenska (argumenterande text)", "Matematik (statistik över förbrukning)"] },
  { id := 4,
    subject := "Samhällsorienterande ämnen",
    grades := ["2", "3", "4"],
    keywords := ["historia", "forntid", "medeltid", "kulturarv", "arkeologi", "monument", "tradition"],
    content := "Eleverna ska utveckla förståelse för historisk tid och hur människor levt förr. Centralt innehåll omfattar svenska traditioner och kulturarv. Förmågor inkluderar att använda historiska källor och dra slutsatser om det förflutna.",
    source := "Lgr22 - Samhällsorienterande ämnen, centralt innehåll årskurs 1-3",
    activities := [
      "Skapa tidslinje över svensk historia",
      "Bygga medeltida borg av kartong och lego",
      "Dramatisera historiska händelser",
      "Intervjua äldre personer om hur det var förr",
      "Besök på museum eller historisk plats",
      "Arkeologisk utgrävning i sandlådan"],
    conceptTags := ["kronologi", "källkritik", "kulturförståelse", "reflektion"],
    pedagogicalLevel := "concrete",
    crossCurricularLinks := ["Svenska (sagor och myter)", "Bild och form (historisk konst)", "Idrott (traditionella lekar)"] },
  { id := 5,
    subject := "Naturorienterande ämnen",
    grades := ["förskoleklass", "1", "2"],
    keywords := ["kropp", "hälsa", "sinnen", "känslor", "hygien", "rörelse", "vila"],
    content := "Eleverna ska utveckla kunskaper om den egna kroppen och vad som påverkar hälsan. Centralt innehåll inkluderar kroppens olika delar och funktioner. Förmågor omfattar att beskriva hur kroppen fungerar och vad som påverkar hälsan.",
    source := "Lgr22 - Naturorienterande ämnen, centralt innehåll årskurs F-3",
    activities := [
      "Rita och benämna kroppsdelar på stora papper",
      "Sinnestest med olika material och lukter",
      "Undersöka hjärtslag före och efter rörelse",
      "Skapa hälsomeny med nyttiga livsmedel",
      "Hygienpraktik med tandborstning och handtvätt",
      "Känslokort och diskussion om olika känslor"],
    conceptTags := ["anatomi", "fysiologi", "hälsopedagogik", "självkänsla"],
    pedagogicalLevel := "concrete",
    crossCurricularLinks := ["Idrott och hälsa (rörelse)", "Svenska (känslor och ord)", "Matematik (mätning av längd och vikt)"] },
  { id := 6,
    subject := "Naturorienterande ämnen",
    grades := ["1", "2", "3"],
    keywords := ["mat", "näring", "livsmedel", "odling", "matlagning", "hälsosam kost"],
    content := "Eleverna ska utveckla kunskaper om livsmedel och näring. Centralt innehåll omfattar varierad och näringsriktig kost. Förmågor inkluderar att planera och genomföra enkel matlagning.",
    source := "Lgr22 - Naturorienterande ämnen, centralt innehåll årskurs 1-3",
    activities := [
      "Odla kryddor och grönsaker i krukor",
      "Tillaga enkel mat som smörgåsar och fruktallad",
      "Sortera livsmedel efter näringsgrupper",
      "Besök på bondgård eller torg",
      "Skapa receptbok med enkla rätter",
      "Smaktest av olika frukter och grönsaker"],
    conceptTags := ["näringslära", "matkultur", "praktisk tillämpning", "hållbarhet"],
    pedagogicalLevel := "concrete",
    crossCurricularLinks := ["Matematik (mätning och vikter)", "Svenska (recept och instruktioner)", "Samhällsorienterande ämnen (matkultur)"] },
  { id := 7,
    subject := "Teknik",
    grades := ["2", "3", "4", "5"],
    keywords := ["transport", "fordon", "rörelse", "teknik", "uppfinningar", "hjul", "motor"],
    content := "Eleverna ska utveckla förståelse för tekniska lösningar inom transport. Centralt innehåll omfattar hur olika fordon fungerar och utvecklats över tid. Förmågor inkluderar att konstruera och testa enkla fordon.",
    source := "Lgr22 - Teknik, centralt innehåll årskurs 1-6",
    activities := [
      "Bygga och testa bilar av återvinningsmaterial",
      "Undersöka olika hjultyper och deras egenskaper",
      "Skapa tidslinje över transportens utveckling",
      "Konstruera broar och testa belastning",
      "Experimentera med vindkraft och segelbilar",
      "Besök på teknisk museum eller bilmuseum"],
    conceptTags := ["mekanik", "konstruktion", "problemlösning", "innovation"],
    pedagogicalLevel := "mixed",
    crossCurricularLinks := ["Matematik (mätning och geometri)", "Naturorienterande ämnen (fysik)", "Samhällsorienterande ämnen (transporthistoria)"] },
  { id := 8,
    subject := "Svenska",
    grades := ["förskoleklass", "1", "2", "3"],
    keywords := ["familj", "hem", "relationer", "berättelser", "känslor", "traditioner"],
    content := "Eleverna ska utveckla språkliga förmågor genom texter om familj och hem. Centralt innehåll inkluderar berättelser och rim. Förmågor omfattar att läsa, skriva och samtala om egna upplevelser.",
    source := "Lgr22 - Svenska, centralt innehåll årskurs F-3",
    activities := [
      "Skriva och illustrera berättelser om familjen",
      "Familjeträd med bilder och berättelser",
      "Intervjua familjemedlemmar om barndom",
      "Dramatisera familjesituationer",
      "Läsa böcker om olika familjekonstellationer",
      "Skapa familjens kokbok med favoritrecept"],
    conceptTags := ["berättande", "identitet", "språkutveckling", "kulturförståelse"],
    pedagogicalLevel := "concrete",
    crossCurricularLinks := ["Samhällsorienterande ämnen (familjetraditioner)", "Bild och form (familjeporträtt)", "Musik (familjesånger)"] },
  { id := 9,
    subject := "Matematik",
    grades := ["1", "2", "3", "4"],
    keywords := ["geometri", "former", "mönster", "symmetri", "mätning", "rymd"],
    content := "Eleverna ska utveckla geometrisk förståelse och rumsuppfattning. Centralt innehåll omfattar grundläggande geometriska former och deras egenskaper. Förmågor inkluderar att identifiera och beskriva geometriska mönster.",
    source := "Lgr22 - Matematik, centralt innehåll årskurs 1-3",
    activities := [
      "Formsökning i klassrummet och utomhus",
      "Bygga med geometriska klossar och former",
      "Skapa symmetriska mönster med speglar",
      "Mäta och jämföra längder med olika redskap",
      "Tangram och andra formpussel",
      "Geometrisk konst med olika material"],
    conceptTags := ["rumsuppfattning", "mönstererkännande", "mätning", "visualisering"],
    pedagogicalLevel := "concrete",
    crossCurricularLinks := ["Bild och form (geometrisk design)", "Teknik (konstruktion)", "Idrott (rörelser i rummet)"] },
  { id := 10,
    subject := "Bild och form",
    grades := ["förskoleklass", "1", "2", "3", "4"],
    keywords := ["konst", "skapande", "färger", "material", "uttryck", "kreativitet"],
    content := "Eleverna ska utveckla sin kreativa förmåga och bildspråk. Centralt innehåll omfattar olika material och tekniker. Förmågor inkluderar att skapa och reflektera över egna och andras bilder.",
    source := "Lgr22 - Bild och form, centralt innehåll årskurs F-6",
    activities := [
      "Experimentera med olika målartekniker",
      "Skapa collage med naturmaterial",
      "Modellera med lera och andra formbara material",
      "Fotografera och skapa digitala berättelser",
      "Studiebesök på konstmuseum eller galleri",
      "Skapa gemensam väggmålning för skolan"],
    conceptTags := ["estetik", "kreativitet", "reflektion", "kulturförståelse"],
    pedagogicalLevel := "mixed",
    crossCurricularLinks := ["Svenska (visuellt berättande)", "Naturorienterande ämnen (naturens former och färger)", "Matematik (geometriska former)"] },
  { id := 11,
    subject := "Musik",
    grades := ["förskoleklass", "1", "2", "3", "4", "5"],
    keywords := ["sång", "rytm", "instrument", "dans", "lyssning", "komposition"],
    content := "Eleverna ska utveckla musikaliska förmågor genom sång, spel och lyssnande. Centralt innehåll omfattar olika musikstilar och kulturer. Förmågor inkluderar att musicera och reflektera över musik.",
    source := "Lgr22 - Musik, centralt innehåll årskurs F-6",
    activities := [
      "Sjunga traditionella svenska sånger",
      "Bygga egna instrument av återvinningsmaterial",
      "Komponera enkla melodier och rytmer",
      "Dansa till musik från olika kulturer",
      "Lyssna på klassisk musik och berätta vad den påminner om",
      "Skapa ljud-landskap med olika material"],
    conceptTags := ["rytm", "melodi", "kulturmångfald", "uttryck"],
    pedagogicalLevel := "concrete",
    crossCurricularLinks := ["Svenska (sångtexter och rim)", "Matematik (rytmiska mönster)", "Idrott och hälsa (dans och rörelse)"] },
  { id := 12,
    subject := "Idrott och hälsa",
    grades := ["förskoleklass", "1", "2", "3", "4", "5", "6"],
    keywords := ["rörelse", "lek", "spel", "kondition", "styrka", "samarbete", "fair play"],
    content := "Eleverna ska utveckla sin motorik och förståelse för rörelsens betydelse för hälsan. Centralt innehåll omfattar olika rörelseformer och lekar. Förmågor inkluderar att röra sig på olika sätt och följa regler.",
    source := "Lgr22 - Idrott och hälsa, centralt innehåll årskurs F-6",
    activities := [
      "Traditionella lekar som kurragömma och hage",
      "Hinderbanor med olika rörelseupgifter",
      "Bollspel och enklare lagsporter",
      "Dans och rytmiska rörelser",
      "Utomhusaktiviteter som orientering",
      "Avslappning och mindfulness-övningar"],
    conceptTags := ["motorik", "samarbete", "hälsa", "regelförståelse"],
    pedagogicalLevel := "concrete",
    crossCurricularLinks := ["Matematik (tid och mätning)", "Musik (rytm och dans)", "Naturorienterande ämnen (kropp och hälsa)"] },
  { id := 13,
    subject := "Naturorienterande ämnen",
    grades := ["3", "4", "5", "6"],
    keywords := ["väder", "klimat", "vattenkretslopp", "årstider", "temperatur", "nederbörd"],
    content := "Eleverna ska utveckla förståelse för väder och klimat. Centralt innehåll omfattar vattnets kretslopp och väderförändringar. Förmågor inkluderar att observera och dokumentera väderförändringar.",
    source := "Lgr22 - Naturorienterande ämnen, centralt innehåll årskurs 4-6",
    activities := [
      "Daglig väderobservation med termometer och regenmätare",
      "Bygga vattenkretsloppsmodell med akvarier",
      "Skapa väderstation på skolgården",
      "Studera molntyper och vad de betyder",
      "Experiment med avdunstning och kondensation",
      "Jämföra väder mellan olika platser i världen"],
    conceptTags := ["meteorologi", "observation", "dataanalys", "systemtänkande"],
    pedagogicalLevel := "mixed",
    crossCurricularLinks := ["Matematik (diagram och statistik)", "Geografi (klimatzoner)", "Teknik (mätinstrument)"] },
  { id := 14,
    subject := "Teknik",
    grades := ["3", "4", "5", "6"],
    keywords := ["energi", "el", "kraft", "maskiner", "automation", "hållbar teknik"],
    content := "Eleverna ska utveckla förståelse för energi och tekniska system. Centralt innehåll omfattar olika energislag och tekniska lösningar. Förmågor inkluderar att konstruera och utvärdera tekniska lösningar.",
    source := "Lgr22 - Teknik, centralt innehåll årskurs 4-6",
    activities := [
      "Bygga enkla elkretsloppsmodeller",
      "Konstruera vindkraftverk och solpaneler",
      "Experimentera med magnet- och elektromagnetisk kraft",
      "Bygga automatiserade system med enkla sensorer",
      "Undersöka energieffektivitet i hemmet",
      "Designa miljövänliga tekniska lösningar"],
    conceptTags := ["energi", "automation", "hållbarhet", "innovation"],
    pedagogicalLevel := "abstract",
    crossCurricularLinks := ["Naturorienterande ämnen (fysik)", "Matematik (mätning och beräkning)", "Samhällsorienterande ämnen (miljöteknik)"] },
  { id := 15,
    subject := "Svenska",
    grades := ["4", "5", "6"],
    keywords := ["läsförståelse", "textanalys", "källkritik", "argumentation", "reflektion"],
    content := "Eleverna ska utveckla läsförståelse och kritiskt tänkande. Centralt innehåll omfattar olika texttyper och källkritik. Förmågor inkluderar att analysera och värdera texter.",
    source := "Lgr22 - Svenska, centralt innehåll årskurs 4-6",
    activities := [
      "Läsa och jämföra nyhetsartiklar från olika källor",
      "Skriva argumenterande texter om aktuella frågor",
      "Boksamtal och litteraturcirklar",
      "Analysera reklam och dess påverkan",
      "Skapa egen tidning eller blogg",
      "Debattera aktuella ämnen med faktaunderlag"],
    conceptTags := ["källkritik", "argumentation", "textanalys", "mediekunnighet"],
    pedagogicalLevel := "abstract",
    crossCurricularLinks := ["Samhällsorienterande ämnen (demokrati)", "Naturorienterande ämnen (vetenskaplig metod)", "Bild och form (visuell kommunikation)"] },
  { id := 16,
    subject := "Matematik",
    grades := ["4", "5", "6"],
    keywords := ["statistik", "sannolikhet", "diagram", "dataanalys", "undersökning", "presentation"],
    content := "Eleverna ska utveckla förmågan att samla in, bearbeta och presentera data. Centralt innehåll omfattar tabeller, diagram och enkla statistiska begrepp. Förmågor inkluderar att genomföra undersökningar och dra slutsatser.",
    source := "Lgr22 - Matematik, centralt innehåll årskurs 4-6",
    activities := [
      "Genomföra undersökning om klasskamraternas intressen",
      "Skapa diagram och grafer av insamlad data",
      "Analysera statistik från sport och samhälle",
      "Experimentera med slumpspel och sannolikhet",
      "Presentera resultat för andra klasser",
      "Använda digitala verktyg för databearbetning"],
    conceptTags := ["dataanalys", "presentation", "kritiskt tänkande", "digitala verktyg"],
    pedagogicalLevel := "abstract",
    crossCurricularLinks := ["Naturorienterande ämnen (vetenskapliga undersökningar)", "Samhällsorienterande ämnen (samhällsstatistik)", "Svenska (presentation av resultat)"] },
  { id := 17,
    subject := "Samhällsorienterande ämnen",
    grades := ["5", "6"],
    keywords := ["demokrati", "rättigheter", "skyldigheter", "politik", "val", "medbestämmande"],
    content := "Eleverna ska utveckla förståelse för demokratiska processer och medborgerliga rättigheter. Centralt innehåll omfattar demokratins principer och elevers inflytande. Förmågor inkluderar att delta i demokratiska processer.",
    source := "Lgr22 - Samhällsorienterande ämnen, centralt innehåll årskurs 4-6",
    activities := [
      "Genomföra klassval med riktiga valförfaranden",
      "Skapa klassråd med förslag och beslut",
      "Studera Barnkonventionen och dess betydelse",
      "Intervjua lokala politiker om deras arbete",
      "Debattera aktuella samhällsfrågor",
      "Organisera kampanj för skolförbättringar"],
    conceptTags := ["demokrati", "medborgarskap", "inflytande", "rättigheter"],
    pedagogicalLevel := "abstract",
    crossCurricularLinks := ["Svenska (argumenterande tal)", "Matematik (val och statistik)", "Bild och form (politiska budskap)"] }
]

/-- Embedding of `calculateSubjectRelevance(subjects, docSubject)`: neutral
0.5 with no subject filter, 1.0 on a mutual case-insensitive substring
match, floor 0.2 otherwise. -/
def calculateSubjectRelevance (subjects : List String) (docSubject : String) : ℚ :=
  if subjects.length = 0 then 1/2
  else if subjects.any (fun subject =>
      containsB (low subject) (low docSubject) || containsB (low docSubject) (low subject)) then 1
  else 1/5

/-- Transcription of the `themeAssociations` table of
`calculateThemeRelevance`: common Swedish theme words mapped to associated
terms. -/
def themeAssociations : List (String × List String) := [
  ("djur", ["natur", "biologi", "ekologi", "habitat", "arter", "observation"]),
  ("rymden", ["astronomi", "planeter", "stjärnor", "universum", "fysik", "modeller"]),
  ("miljö", ["hållbarhet", "klimat", "återvinning", "ekologi", "naturresurser"]),
  ("historia", ["förr", "kulturarv", "tradition", "kronologi", "källkritik"]),
  ("kropp", ["hälsa", "anatomi", "sinnen", "rörelse", "hygien", "känslor"]),
  ("mat", ["näring", "livsmedel", "hälsa", "odling", "matkultur", "kost"]),
  ("transport", ["fordon", "teknik", "rörelse", "utveckling", "innovation"]),
  ("familj", ["hem", "relationer", "traditioner", "berättelser", "identitet"]),
  ("matematik", ["tal", "räkning", "geometri", "mätning", "problem", "logik"]),
  ("språk", ["läsning", "skrivning", "kommunikation", "berättelse", "ordförråd"])]

/-- First scan loop of `calculateThemeRelevance`: every document keyword
against every theme word, weight 1.0 per mutual substring match. -/
def themeKwLoop (themeWords : List (List Char)) (keywords : List String)
    (a0 : ℚ × Nat) : ℚ × Nat :=
  keywords.foldl (fun a keyword =>
    themeWords.foldl (fun a themeWord =>
      if containsB (low keyword) themeWord || containsB themeWord (low keyword) then
        (a.1 + 1, a.2 + 1)
      else a) a) a0

/-- Second scan loop of `calculateThemeRelevance`: every theme word against
the lower-cased document body, weight 0.5 per containment. -/
def themeContentLoop (themeWords : List (List Char)) (contentLower : List Char)
    (a0 : ℚ × Nat) : ℚ × Nat :=
  themeWords.foldl (fun a themeWord =>
    if containsB contentLower themeWord then (a.1 + 1/2, a.2 + 1) else a) a0

/-- Third scan loop of `calculateThemeRelevance`: every concept tag against
every theme word, weight 0.7 per mutual substring match. -/
def themeTagLoop (themeWords : List (List Char)) (conceptTags : List String)
    (a0 : ℚ × Nat) : ℚ × Nat :=
  conceptTags.foldl (fun a tag =>
    themeWords.foldl (fun a themeWord =>
      if containsB (low tag) themeWord || containsB themeWord (low tag) then
        (a.1 + 7/10, a.2 + 1)
      else a) a) a0

/-- Fourth scan loop of `calculateThemeRelevance`: for every theme word
whose own-property lookup in the association table succeeds, each
associated term is checked against keywords, concept tags and body,
weight 0.3 per hit.  This models only the own properties of the
`themeAssociations` object literal; the prototype-chain behaviour of the
JavaScript property access — a truthy non-iterable inherited value for
the theme words in `inheritedObjectProps`, on which the source throws a
`TypeError` — is modelled by `calculateThemeRelevanceJS`. -/
def themeAssocLoop (themeWords : List (List Char)) (document : CurriculumDocument)
    (contentLower : List Char) (a0 : ℚ × Nat) : ℚ × Nat :=
  themeWords.foldl (fun a themeWord =>
    match List.lookup (String.mk themeWord) themeAssociations with
    | none => a
    | some associations =>
      associations.foldl (fun a association =>
        if document.keywords.any (fun k => containsB (low k) association.toList)
            || document.conceptTags.any (fun t => containsB (low t) association.toList)
            || containsB contentLower association.toList then
          (a.1 + 3/10, a.2 + 1)
        else a) a) a0

/-- Accumulator pass of `calculateThemeRelevance`: the pair
`(totalRelevance, matchCount)` after the four scan loops of the source
(keywords at weight 1.0, body containment at 0.5, concept tags at 0.7,
association-table hits at 0.3). -/
def themeAcc (theme : String) (document : CurriculumDocument) : ℚ × Nat :=
  let themeWords := splitWs (low theme)
  let contentLower := low document.content
  themeAssocLoop themeWords document contentLower
    (themeTagLoop themeWords document.conceptTags
      (themeContentLoop themeWords contentLower
        (themeKwLoop themeWords document.keywords (0, 0))))

/-- Embedding of `calculateThemeRelevance(theme, document)`: the final line
`matchCount > 0 ? Math.min(totalRelevance / Math.max(matchCount, 1), 1.0) : 0`
applied to the accumulated pair. -/
def calculateThemeRelevance (theme : String) (document : CurriculumDocument) : ℚ :=
  let a := themeAcc theme document
  if 0 < a.2 then qMin (a.1 / qMax (a.2 : ℚ) 1) 1 else 0

/-- The all-lowercase property names of `Object.prototype`.  A theme word is
always lower-cased, so these are exactly the inherited properties it can
reach when `themeAssociations[themeWord]` consults the prototype chain:
both values (`Object` and `Object.prototype`) are truthy and not
iterable. -/
def inheritedObjectProps : List String := ["constructor", "__proto__"]

/-- `calculateThemeRelevance` under full JavaScript property-lookup
semantics.  `themeAssociations` is a plain object literal, so the guard
`if (themeAssociations[themeWord])` also passes for the inherited
`Object.prototype` properties `constructor` and `__proto__`, whose values
are truthy but not iterable; the following `for...of` then throws a
`TypeError` and the function returns no score at all.  For every other
theme word the property access sees exactly the ten own entries, and the
result is the total model `calculateThemeRelevance`. -/
def calculateThemeRelevanceJS (theme : String) (document : CurriculumDocument) :
    Except String ℚ :=
  let themeWords := splitWs (low theme)
  if themeWords.any (fun themeWord => inheritedObjectProps.contains (String.mk themeWord)) then
    .error "TypeError: themeAssociations[themeWord] is not iterable"
  else
    .ok (calculateThemeRelevance theme document)

/-- Embedding of `calculatePedagogicalRelevance(grade, document)`: exact
grade membership, then numeric-distance buckets, then the
förskoleklass/grade-1 adjacency rule, then the 0.2 floor.  The running
`minDistance` starting at `Infinity` is modelled as an `Option Nat` with
`none` for `Infinity`. -/
def calculatePedagogicalRelevance (grade : String) (document : CurriculumDocument) : ℚ :=
  if document.grades.contains grade then 1
  else
    let fallback : ℚ :=
      if grade == "förskoleklass" && document.grades.contains "1" then 4/5
      else if grade == "1" && document.grades.contains "förskoleklass" then 4/5
      else 1/5
    match parseIntJS grade with
    | none => fallback
    | some numericGrade =>
      match document.grades.foldl (fun minDistance docGrade =>
          match parseIntJS docGrade with
          | some docNumeric =>
            let distance := (numericGrade - docNumeric).natAbs
            match minDistance with
            | none => some distance
            | some m => some (min m distance)
          | none => minDistance) (none : Option Nat) with
      | some minDistance =>
        if minDistance ≤ 1 then 4/5
        else if minDistance ≤ 2 then 3/5
        else if minDistance ≤ 3 then 2/5
        else fallback
      | none => fallback

/-- A curriculum document together with the four per-query scores that
`findRelevantCurriculum` spreads onto a fresh copy of the stored
document. -/
structure ScoredDocument extends CurriculumDocument where
  subjectScore : ℚ
  themeScore : ℚ
  pedagogicalScore : ℚ
  totalScore : ℚ
deriving DecidableEq, Repr

/-- Embedding of the `CurriculumSearchResult` interface. -/
structure CurriculumSearchResult where
  documents : List ScoredDocument
  relevanceScore : ℚ
deriving DecidableEq, Repr

/-- Stable descending insertion for `sortByTotalDesc`: the element is placed
before the first position whose `totalScore` does not exceed it, so that
elements with equal scores keep their original relative order. -/
def insertDoc (x : ScoredDocument) : List ScoredDocument → List ScoredDocument
  | [] => [x]
  | y :: ys => if y.totalScore ≤ x.totalScore then x :: y :: ys else y :: insertDoc x ys

/-- Model of the stable sort
`relevantDocuments.sort((a, b) => b.totalScore! - a.totalScore!)` performed
on the freshly built array of relevant documents (ECMAScript sort is
stable, so equal scores keep array order). -/
def sortByTotalDesc : List ScoredDocument → List ScoredDocument
  | [] => []
  | x :: xs => insertDoc x (sortByTotalDesc xs)

/-- JavaScript `Math.round`: round half toward positive infinity. -/
def jsRound (q : ℚ) : ℤ := Rat.floor (q + 1/2)

/-- Model of `Math.round(q * 1000) / 1000`. -/
def round3 (q : ℚ) : ℚ := (jsRound (q * 1000) : ℚ) / 1000

/-- Model of `Math.round(q * 100) / 100`. -/
def round2 (q : ℚ) : ℚ := (jsRound (q * 100) : ℚ) / 100

/-- Per-document scoring step of `findRelevantCurriculum`: the three
sub-scores and the weighted total (subject 40%, theme 40%, pedagogical
20%) spread onto a fresh copy of the stored document. -/
def scoreDocument (theme grade : String) (subjects : List String)
    (doc : CurriculumDocument) : ScoredDocument :=
  let subjectScore := calculateSubjectRelevance subjects doc.subject
  let themeScore := calculateThemeRelevance theme doc
  let pedagogicalScore := calculatePedagogicalRelevance grade doc
  let totalScore := subjectScore * (2/5) + themeScore * (2/5) + pedagogicalScore * (1/5)
  { toCurriculumDocument := doc,
    subjectScore := subjectScore, themeScore := themeScore,
    pedagogicalScore := pedagogicalScore, totalScore := totalScore }

/-- Embedding of `findRelevantCurriculum(theme, grade, subjects)`: the
grade-proximity pre-filter, per-document weighted scoring onto fresh
copies, the 0.3 total-score floor, the stable descending sort, the top-4
truncation and the rounded aggregate relevance score. -/
def findRelevantCurriculum (theme grade : String) (subjects : List String) :
    CurriculumSearchResult :=
  let gradeFilteredDocs := curriculumData.filter (fun doc =>
    decide ((2 : ℚ)/5 ≤ calculatePedagogicalRelevance grade doc))
  let scoredDocuments := gradeFilteredDocs.map (scoreDocument theme grade subjects)
  let relevantDocuments := scoredDocuments.filter (fun doc =>
    decide ((3 : ℚ)/10 ≤ doc.totalScore))
  let sortedDocuments := (sortByTotalDesc relevantDocuments).take 4
  let relevanceScore : ℚ :=
    if 0 < sortedDocuments.length then
      (sortedDocuments.foldl (fun sum doc => sum + doc.totalScore) 0) /
        (sortedDocuments.length : ℚ)
    else 0
  { documents := sortedDocuments, relevanceScore := round3 relevanceScore }

/-- Attempt budget `MAX_RETRIES` of the Gemini route. -/
def MAX_RETRIES : Nat := 3

/-- Minimum plan length `MIN_PLAN_LENGTH` of the compliance rubric. -/
def MIN_PLAN_LENGTH : Nat := 200

/-- Acceptance threshold `MIN_QUALITY_SCORE = 0.6` of the retry loop. -/
def MIN_QUALITY_SCORE : ℚ := 3/5

/-- The five mandatory Lgr22 terms (`REQUIRED_ELEMENTS`). -/
def REQUIRED_ELEMENTS : List String :=
  ["centralt innehåll", "förmågor", "kunskapskrav", "lgr22", "läroplanen"]

/-- The nine Swedish pedagogical vocabulary terms of the rubric. -/
def pedagogicalTerms : List String :=
  ["eleverna ska", "utveckla", "kunskap", "förmåga", "reflektion",
   "bedömning", "progression", "variation", "differentierng"]

/-- Model of `/#{1,3}\s/.test(plan)`.  Any match of one to three hash signs
followed by whitespace ends in a hash sign followed by whitespace, and any
such two-character window is itself a match, so the test reduces to
scanning for `#` immediately followed by a whitespace character. -/
def hasHeadersB : List Char → Bool
  | c1 :: c2 :: rest => (c1 == '#' && isWs c2) || hasHeadersB (c2 :: rest)
  | _ => false

/-- Model of `/[-*+]\s/.test(plan)`: a bullet character immediately followed
by whitespace. -/
def hasBulletCharB : List Char → Bool
  | c1 :: c2 :: rest =>
    ((c1 == '-' || c1 == '*' || c1 == '+') && isWs c2) || hasBulletCharB (c2 :: rest)
  | _ => false

/-- Model of `/\d+\.\s/.test(plan)`: any match of a digit run, a dot and a
whitespace character ends in the three-character window digit, dot,
whitespace, and such a window is itself a match. -/
def hasNumberedB : List Char → Bool
  | c1 :: c2 :: c3 :: rest =>
    (c1.isDigit && c2 == '.' && isWs c3) || hasNumberedB (c2 :: c3 :: rest)
  | _ => false

/-- Embedding of the validator's return shape. -/
structure ComplianceReport where
  score : ℚ
  issues : List String
  hasRequiredElements : Bool
deriving DecidableEq, Repr

/-- The `missingElements` array of `validateCurriculumCompliance`: mandatory
terms with no case-insensitive occurrence in the plan. -/
def missingElements (plan : String) : List String :=
  REQUIRED_ELEMENTS.filter (fun element => !containsB (low plan) (low element))

/-- Embedding of `validateCurriculumCompliance(plan)`: the four sequential
rubric deductions (missing Lgr22 elements at 0.15 each, sparse pedagogical
vocabulary at 0.1, short plan at 0.2, missing structure markers at 0.1),
the issue strings pushed by each firing check, and the final floor at 0.
Each `stepN` is the `(score, issues)` state after the corresponding check
of the source. -/
def validateCurriculumCompliance (plan : String) : ComplianceReport :=
  let planLower := low plan
  let missing := missingElements plan
  let step1 : ℚ × List String :=
    if 0 < missing.length then
      (1 - (missing.length : ℚ) * (15/100),
       ["Saknar viktiga Lgr22-element: " ++ joinSep ", " missing])
    else (1, [])
  let foundTerms := pedagogicalTerms.filter (fun term => containsB planLower (low term))
  let step2 :=
    if foundTerms.length < 3 then
      (step1.1 - 1/10, step1.2 ++ ["Begränsad användning av pedagogisk terminologi"])
    else step1
  let step3 :=
    if plan.length < MIN_PLAN_LENGTH then
      (step2.1 - 2/10,
       step2.2 ++ ["Lektionsplanen är för kort (" ++ toString plan.length ++
                   " tecken, minimum " ++ toString MIN_PLAN_LENGTH ++ ")"])
    else step2
  let hasHeaders := hasHeadersB plan.toList
  let hasBulletPoints := hasBulletCharB plan.toList || hasNumberedB plan.toList
  let step4 :=
    if !hasHeaders || !hasBulletPoints then
      (step3.1 - 1/10, step3.2 ++ ["Saknar tydlig struktur med rubriker och punktlistor"])
    else step3
  { score := qMax step4.1 0, issues := step4.2, hasRequiredElements := missing.length == 0 }

/-- The `bestAttempt` record tracked across retry iterations. -/
structure AttemptRecord where
  plan : String
  score : ℚ
  issues : List String
deriving DecidableEq, Repr

/-- The metadata object attached to a returned plan. -/
structure Metadata where
  curriculumReferences : Nat
  qualityScore : ℚ
  complianceIssues : List String
deriving DecidableEq, Repr

/-- Possible outcomes of one call of `generatePlanWithRetries`:
a plan accepted by the quality gate, the best-by-score record returned
after exhaustion, a propagated rejection of the generation callable, or
the defensive `QUALITY_TOO_LOW` error thrown when no attempt ever
produced text. -/
inductive RetryResult (ε : Type) where
  | accepted (plan : String) (metadata : Metadata)
  | fallbackBest (plan : String) (metadata : Metadata)
  | genFailure (e : ε)
  | qualityTooLow
deriving DecidableEq, Repr

/-- The metadata the route builds next to a returned plan: the count of
`Lgr22` occurrences in the assembled curriculum context, the quality score
rounded to two decimals, and the issue list. -/
def mkMetadata (curriculumContext : String) (score : ℚ) (issues : List String) : Metadata :=
  { curriculumReferences := countOccur curriculumContext.toList "Lgr22".toList,
    qualityScore := round2 score,
    complianceIssues := issues }

/-- The best-attempt tracking block of the retry loop: replace the running
record exactly when the new attempt's validation score is strictly
greater (or when there is no record yet). -/
def updateBest (best : Option AttemptRecord) (plan : String) : Option AttemptRecord :=
  let validation := validateCurriculumCompliance plan
  match best with
  | none => some ⟨plan, validation.score, validation.issues⟩
  | some b =>
    if b.score < validation.score then some ⟨plan, validation.score, validation.issues⟩
    else some b

/-- Loop body of `generatePlanWithRetries`.  `attempt` counts up from 1
exactly as in the source; `remaining` is the number of loop iterations
still allowed (`MAX_RETRIES + 1 - attempt`), giving structural recursion.
The injected generation callable is modelled as a map from attempt index
to an `Except` outcome, one value per sequential invocation.  The second
component of the result counts how many times the callable was invoked. -/
def retryAux {ε : Type} (gen : Nat → Except ε String) (curriculumContext : String) :
    Nat → Nat → Option AttemptRecord → RetryResult ε × Nat
  | 0, _, best =>
    (match best with
     | some b => (.fallbackBest b.plan (mkMetadata curriculumContext b.score b.issues), 0)
     | none => (.qualityTooLow, 0))
  | remaining + 1, attempt, best =>
    match gen attempt with
    | .error e =>
      if attempt == MAX_RETRIES then (.genFailure e, 1)
      else
        let rest := retryAux gen curriculumContext remaining (attempt + 1) best
        (rest.1, rest.2 + 1)
    | .ok plan =>
      let validation := validateCurriculumCompliance plan
      let best' := updateBest best plan
      if MIN_QUALITY_SCORE ≤ validation.score ∧ validation.hasRequiredElements = true then
        (.accepted plan (mkMetadata curriculumContext validation.score validation.issues), 1)
      else
        let rest := retryAux gen curriculumContext remaining (attempt + 1) best'
        (rest.1, rest.2 + 1)

/-- Embedding of `generatePlanWithRetries`: run the attempt loop from
attempt 1 with no best record, with `MAX_RETRIES` iterations allowed. -/
def generatePlanWithRetries {ε : Type} (gen : Nat → Except ε String)
    (curriculumContext : String) : RetryResult ε × Nat :=
  retryAux gen curriculumContext MAX_RETRIES 1 none

/-- Whether a retry outcome is the defensive `QUALITY_TOO_LOW` error. -/
def RetryResult.isQualityTooLow {ε : Type} : RetryResult ε → Bool
  | .qualityTooLow => true
  | _ => false

/-- Whether a retry outcome surfaces an error to the caller (either a
propagated generation failure or the `QUALITY_TOO_LOW` error), as opposed
to returning a plan. -/
def RetryResult.isError {ε : Type} : RetryResult ε → Bool
  | .genFailure _ => true
  | .qualityTooLow => true
  | _ => false

/-- Ranking order claimed for the returned documents: strictly larger total
score first, ties by ascending original document id. -/
def RankedBefore (a b : ScoredDocument) : Prop :=
  b.totalScore < a.totalScore ∨ (a.totalScore = b.totalScore ∧ a.id < b.id)

/-- The förskoleklass/grade-1 adjacency fallback of the grade score, as
worded by the spec: the non-numeric lowest grade label and numeric grade
"1" are mutually adjacent at 0.8 in both directions; any other case gives
the 0.2 floor. -/
def adjacencyScore (grade : String) (grades : List String) : ℚ :=
  if grade == "förskoleklass" && grades.contains "1" then 4/5
  else if grade == "1" && grades.contains "förskoleklass" then 4/5
  else 1/5

/-- Minimum absolute distance between the (parsed) query grade and the
document grades that parse as integers, as worded by the spec; `none` when
no document grade parses. -/
def minimumDist (g : Int) : List String → Option Nat
  | [] => none
  | dg :: rest =>
    match parseIntJS dg, minimumDist g rest with
    | none, r => r
    | some dn, none => some ((g - dn).natAbs)
    | some dn, some r => some (min ((g - dn).natAbs) r)

/-- Merge of two running minima in the `Option Nat` model of `Infinity`:
used to relate the source's fold to `minimumDist`. -/
def minMerge : Option Nat → Option Nat → Option Nat
  | none, r => r
  | some a, none => some a
  | some a, some b => some (min a b)

/-- Grade score as worded by claim C4 and spec §4.1, for comparison with the
source embedding `calculatePedagogicalRelevance`: exact membership 1.0;
else the minimum numeric distance buckets 0.8 / 0.6 / 0.4; else the mutual
förskoleklass/1 adjacency at 0.8; else the 0.2 floor. -/
def gradeScoreSpec (grade : String) (grades : List String) : ℚ :=
  if grades.contains grade then 1
  else
    match parseIntJS grade with
    | some g =>
      match minimumDist g grades with
      | some d =>
        if d ≤ 1 then 4/5 else if d ≤ 2 then 3/5 else if d ≤ 3 then 2/5
        else adjacencyScore grade grades
      | none => adjacencyScore grade grades
    | none => adjacencyScore grade grades

/-- A step function on the `(totalRelevance, matchCount)` accumulator that
never decreases the hit count, only changes the accumulator when it
increases the hit count, and preserves nonnegativity of the weight. -/
def AccProps (f : ℚ × Nat → ℚ × Nat) : Prop :=
  (∀ a, a.2 ≤ (f a).2) ∧ (∀ a, (f a).2 = a.2 → f a = a) ∧ (∀ a, 0 ≤ a.1 → 0 ≤ (f a).1)

/-- A concrete plan text scoring exactly 0.3: three of the five required
elements are present (two missing, −0.3), no pedagogical vocabulary
(−0.1), fewer than 200 characters (−0.2), and no structure markers
(−0.1). -/
def planA : String := "lgr22 läroplanen centralt innehåll"

/-- A second, distinct plan text scoring exactly 0.3. -/
def planB : String := "lgr22 läroplanen centralt innehåll b"

/-- A third, distinct plan text scoring exactly 0.3. -/
def planC : String := "lgr22 läroplanen centralt innehåll c"

/-- A generation stub that produces text on attempt 1 and rejects on every
later attempt. -/
def genTextThenFail : Nat → Except String String :=
  fun attempt => if attempt = 1 then .ok planA else .error "fel"

/-- A generation stub that always resolves, returning three distinct texts
all scoring 0.3. -/
def genAlways03 : Nat → Except String String :=
  fun attempt => if attempt = 1 then .ok planA else if attempt = 2 then .ok planB else .ok planC

/-- A generation stub that always rejects. -/
def genAllFail : Nat → Except String String := fun _ => .error "fel"

/-- A generation stub that always resolves with the same 0.3-scoring
text. -/
def genAlwaysOkA : Nat → Except String String := fun _ => .ok planA

/-- The first corpus document (the animals/habitat document, id 1), used as
a concrete witness input. -/
def docAnimals : CurriculumDocument := curriculumData.get ⟨0, by decide⟩

theorem prefB_self_append (l r : List Char) : prefB l (l ++ r) = true := by
  induction l with
  | nil => rfl
  | cons a as ih => simp [prefB, ih]

theorem prefB_refl (l : List Char) : prefB l l = true := by
  simpa using prefB_self_append l []

theorem containsB_nil_needle (hay : List Char) : containsB hay [] = true := by
  cases hay with
  | nil => rfl
  | cons c t => simp [containsB, prefB]

theorem containsB_of_prefB {hay n : List Char} (h : prefB n hay = true) :
    containsB hay n = true := by
  cases hay with
  | nil =>
    cases n with
    | nil => rfl
    | cons a as => simp [prefB] at h
  | cons x t => simp [containsB, h]

theorem containsB_refl (l : List Char) : containsB l l = true :=
  containsB_of_prefB (prefB_refl l)

theorem containsB_append_right {b n : List Char} (a : List Char)
    (h : containsB b n = true) : containsB (a ++ b) n = true := by
  induction a with
  | nil => simpa using h
  | cons x xs ih =>
    simp only [List.cons_append, containsB, Bool.or_eq_true]
    exact Or.inr ih

theorem containsB_self_append (n r : List Char) : containsB (n ++ r) n = true :=
  containsB_of_prefB (prefB_self_append n r)

theorem toList_append (a b : String) : (a ++ b).toList = a.toList ++ b.toList := rfl

theorem containsB_joinSep {e : String} (sep : String) (l : List String) (he : e ∈ l) :
    containsB (joinSep sep l).toList e.toList = true := by
  induction l with
  | nil => cases he
  | cons x xs ih =>
    cases xs with
    | nil =>
      rcases List.mem_singleton.mp he with rfl
      exact containsB_refl e.toList
    | cons y ys =>
      rcases List.mem_cons.mp he with rfl | h2
      · show containsB (e ++ sep ++ joinSep sep (y :: ys)).toList e.toList = true
        rw [toList_append, toList_append, List.append_assoc]
        exact containsB_self_append _ _
      · show containsB (x ++ sep ++ joinSep sep (y :: ys)).toList e.toList = true
        rw [toList_append]
        exact containsB_append_right _ (ih h2)

theorem qMax_comm (a b : ℚ) : qMax a b = qMax b a := by
  unfold qMax
  split_ifs <;> first | rfl | linarith

theorem validate_issues_head {plan : String} (h : 0 < (missingElements plan).length) :
    ∃ rest, (validateCurriculumCompliance plan).issues =
      ("Saknar viktiga Lgr22-element: " ++ joinSep ", " (missingElements plan)) :: rest := by
  simp only [validateCurriculumCompliance]
  split_ifs <;> simp_all

theorem validate_score_of_issues_nil {plan : String}
    (h : (validateCurriculumCompliance plan).issues = []) :
    (validateCurriculumCompliance plan).score = 1 := by
  simp only [validateCurriculumCompliance] at h ⊢
  split_ifs at h ⊢ <;> simp_all [qMax]

theorem qMax_zero_eq {a b : ℚ} (h : a = b) : qMax a 0 = qMax 0 b := by
  rw [h, qMax_comm]

/-- Claim C7: for every input text, `validateCurriculumCompliance` returns
score = max(0, 1.0 − 0.15·(number of missing required terms) − 0.1·(1 if
fewer than 3 vocabulary terms appear) − 0.2·(1 if character length < 200)
− 0.1·(1 if a heading marker or a list marker is absent)), each missing
required term is named in the issues list, and `hasRequiredElements` is
true iff zero required terms are missing. -/
theorem claim_c7 (plan : String) :
    (validateCurriculumCompliance plan).score =
      qMax 0 (1 - ((missingElements plan).length : ℚ) * (15/100)
            - (if (pedagogicalTerms.filter (fun term => containsB (low plan) (low term))).length < 3
               then 1/10 else 0)
            - (if plan.length < MIN_PLAN_LENGTH then 2/10 else 0)
            - (if (!hasHeadersB plan.toList || !(hasBulletCharB plan.toList || hasNumberedB plan.toList)) = true
               then 1/10 else 0)) ∧
    (missingElements plan).Forall (fun element =>
      (validateCurriculumCompliance plan).issues.any
        (fun issue => containsB issue.toList element.toList) = true) ∧
    ((validateCurriculumCompliance plan).hasRequiredElements = true ↔ missingElements plan = []) := by
  refine ⟨?_, ?_, ?_⟩
  · simp only [validateCurriculumCompliance]
    split_ifs <;> apply qMax_zero_eq <;>
      first
        | (push_cast; ring1)
        | (have hm0 : (missingElements plan).length = 0 := by omega
           rw [hm0]; push_cast; ring1)
  · rw [List.forall_iff_forall_mem]
    intro e he
    have hpos : 0 < (missingElements plan).length :=
      List.length_pos.mpr (List.ne_nil_of_mem he)
    obtain ⟨rest, hIss⟩ := validate_issues_head hpos
    rw [hIss]
    simp only [List.any_cons, Bool.or_eq_true]
    left
    rw [toList_append]
    exact containsB_append_right _ (containsB_joinSep ", " _ he)
  · simp only [validateCurriculumCompliance]
    simp [List.length_eq_zero]

theorem validate_planA_score : (validateCurriculumCompliance planA).score = 3/10 := by
  have hmiss : missingElements planA = ["förmågor", "kunskapskrav"] := by decide
  have hfound : pedagogicalTerms.filter (fun term => containsB (low planA) (low term)) = [] := by
    decide
  have hlen : planA.length < MIN_PLAN_LENGTH := by decide
  have hh : hasHeadersB planA.toList = false := by decide
  have hb : hasBulletCharB planA.toList = false := by decide
  have hn : hasNumberedB planA.toList = false := by decide
  simp only [validateCurriculumCompliance, hmiss, hfound, hh, hb, hn, hlen]
  norm_num [qMax]

theorem validate_planB_score : (validateCurriculumCompliance planB).score = 3/10 := by
  have hmiss : missingElements planB = ["förmågor", "kunskapskrav"] := by decide
  have hfound : pedagogicalTerms.filter (fun term => containsB (low planB) (low term)) = [] := by
    decide
  have hlen : planB.length < MIN_PLAN_LENGTH := by decide
  have hh : hasHeadersB planB.toList = false := by decide
  have hb : hasBulletCharB planB.toList = false := by decide
  have hn : hasNumberedB planB.toList = false := by decide
  simp only [validateCurriculumCompliance, hmiss, hfound, hh, hb, hn, hlen]
  norm_num [qMax]

theorem validate_planC_score : (validateCurriculumCompliance planC).score = 3/10 := by
  have hmiss : missingElements planC = ["förmågor", "kunskapskrav"] := by decide
  have hfound : pedagogicalTerms.filter (fun term => containsB (low planC) (low term)) = [] := by
    decide
  have hlen : planC.length < MIN_PLAN_LENGTH := by decide
  have hh : hasHeadersB planC.toList = false := by decide
  have hb : hasBulletCharB planC.toList = false := by decide
  have hn : hasNumberedB planC.toList = false := by decide
  simp only [validateCurriculumCompliance, hmiss, hfound, hh, hb, hn, hlen]
  norm_num [qMax]

theorem min_quality_not_le : ¬(MIN_QUALITY_SCORE ≤ (3 : ℚ)/10) := by
  norm_num [MIN_QUALITY_SCORE]

theorem ratFloor_eq_floor (q : ℚ) : Rat.floor q = ⌊q⌋ := by
  rw [Rat.floor_def', ← Rat.floor_def]

theorem round2_three_tenths : round2 (3/10) = 3/10 := by
  rw [round2, jsRound, ratFloor_eq_floor]
  norm_num

/-- Claim C2 (amended): given a stub that always resolves with text scoring
0.3 (below the 0.6 acceptance floor), `generatePlanWithRetries` performs
all 3 attempts, invokes the stub exactly 3 times, and returns the FIRST
encountered 0.3-scoring text — the running best-by-score record is
replaced only when a later attempt's score is strictly greater, so ties
keep the first-seen best — with its real 0.3 score (also after rounding)
and a non-empty issues list. -/
theorem claim_c2 {ε : Type} (gen : Nat → Except ε String) (ctx t1 t2 t3 : String)
    (h1 : gen 1 = .ok t1) (h2 : gen 2 = .ok t2) (h3 : gen 3 = .ok t3)
    (hs1 : (validateCurriculumCompliance t1).score = 3/10)
    (hs2 : (validateCurriculumCompliance t2).score = 3/10)
    (hs3 : (validateCurriculumCompliance t3).score = 3/10) :
    generatePlanWithRetries gen ctx =
      (.fallbackBest t1 (mkMetadata ctx (3/10) (validateCurriculumCompliance t1).issues), 3) ∧
    (mkMetadata ctx (3/10) (validateCurriculumCompliance t1).issues).qualityScore = 3/10 ∧
    (validateCurriculumCompliance t1).issues ≠ [] := by
  refine ⟨?_, ?_, ?_⟩
  · simp [generatePlanWithRetries, MAX_RETRIES, retryAux, h1, h2, h3, updateBest,
          min_quality_not_le, hs1, hs2, hs3]
  · simp [mkMetadata, round2_three_tenths]
  · intro hnil
    have h1' := validate_score_of_issues_nil hnil
    rw [hs1] at h1'
    norm_num at h1'

/-- Counterexample to claim C2 as stated: a stub that always resolves with
three distinct texts all scoring 0.3 makes the controller return the
first encountered 0.3-scoring text (`planA`), not the last one
(`planC`). -/
theorem counterexample_c2 :
    generatePlanWithRetries genAlways03 "" =
      (.fallbackBest planA (mkMetadata "" (3/10) (validateCurriculumCompliance planA).issues), 3) ∧
    (validateCurriculumCompliance planA).score = 3/10 ∧
    (validateCurriculumCompliance planB).score = 3/10 ∧
    (validateCurriculumCompliance planC).score = 3/10 ∧
    planA ≠ planC := by
  refine ⟨?_, validate_planA_score, validate_planB_score, validate_planC_score, by decide⟩
  have h1 : genAlways03 1 = .ok planA := rfl
  have h2 : genAlways03 2 = .ok planB := rfl
  have h3 : genAlways03 3 = .ok planC := rfl
  simp [generatePlanWithRetries, MAX_RETRIES, retryAux, h1, h2, h3, updateBest,
        min_quality_not_le, validate_planA_score, validate_planB_score, validate_planC_score]

/-- Witness for claim C2: the amended claim instantiated at the concrete
always-0.3 stub. -/
theorem claim_c2_witness :
    generatePlanWithRetries genAlways03 "" =
      (.fallbackBest planA (mkMetadata "" (3/10) (validateCurriculumCompliance planA).issues), 3) ∧
    (mkMetadata "" (3/10) (validateCurriculumCompliance planA).issues).qualityScore = 3/10 ∧
    (validateCurriculumCompliance planA).issues ≠ [] :=
  claim_c2 genAlways03 "" planA planB planC rfl rfl rfl
    validate_planA_score validate_planB_score validate_planC_score

/-- Claim C6: given a stub that always rejects, `generatePlanWithRetries`
invokes the stub exactly 3 times and propagates the transport failure
raised by the (final) generation call, not the dedicated
quality-unattainable failure kind. -/
theorem claim_c6 {ε : Type} (gen : Nat → Except ε String) (ctx : String) (e1 e2 e3 : ε)
    (h1 : gen 1 = .error e1) (h2 : gen 2 = .error e2) (h3 : gen 3 = .error e3) :
    generatePlanWithRetries gen ctx = (.genFailure e3, 3) ∧
    (RetryResult.genFailure (ε := ε) e3).isQualityTooLow = false := by
  constructor
  · simp [generatePlanWithRetries, MAX_RETRIES, retryAux, h1, h2, h3]
  · rfl

/-- Witness for claim C6: the claim instantiated at the concrete
always-rejecting stub. -/
theorem claim_c6_witness :
    generatePlanWithRetries genAllFail "" = (.genFailure "fel", 3) ∧
    (RetryResult.genFailure (ε := String) "fel").isQualityTooLow = false :=
  claim_c6 genAllFail "" "fel" "fel" "fel" rfl rfl rfl

theorem retryAux_no_qtl {ε : Type} (gen : Nat → Except ε String) (ctx : String) :
    ∀ (remaining attempt : Nat) (best : Option AttemptRecord),
      attempt + remaining = MAX_RETRIES + 1 → 1 ≤ remaining →
      ((retryAux gen ctx remaining attempt best).1).isQualityTooLow = false := by
  intro remaining
  induction remaining with
  | zero => intro attempt best _ h; omega
  | succ r ih =>
    intro attempt best hinv _
    simp only [MAX_RETRIES] at hinv
    rcases hg : gen attempt with e | plan
    · by_cases ha : (attempt == MAX_RETRIES) = true
      · simp [retryAux, hg, ha, RetryResult.isQualityTooLow]
      · rcases r with _ | r'
        · exfalso
          have h3 : attempt = 3 := by omega
          simp [MAX_RETRIES, h3] at ha
        · simp only [retryAux, hg, ha, Bool.false_eq_true, if_false]
          exact ih (attempt + 1) best (by simp [MAX_RETRIES]; omega) (by omega)
    · simp only [retryAux, hg]
      by_cases hacc : MIN_QUALITY_SCORE ≤ (validateCurriculumCompliance plan).score ∧
          (validateCurriculumCompliance plan).hasRequiredElements = true
      · simp [hacc, RetryResult.isQualityTooLow]
      · simp only [if_neg hacc]
        rcases r with _ | r'
        · rcases best with _ | b
          · simp [retryAux, updateBest, RetryResult.isQualityTooLow]
          · simp only [retryAux, updateBest]
            split_ifs <;> simp [RetryResult.isQualityTooLow]
        · exact ih (attempt + 1) (updateBest best plan) (by simp [MAX_RETRIES]; omega) (by omega)

/-- Claim C8: the dedicated quality-unattainable (`QUALITY_TOO_LOW`) branch
of `generatePlanWithRetries` is unreachable: completing all 3 iterations
without returning and without rethrowing leaves a non-null best-attempt
record, so the function never throws `QUALITY_TOO_LOW` for any behaviour
of the generation callable. -/
theorem claim_c8 {ε : Type} (gen : Nat → Except ε String) (ctx : String) :
    ((generatePlanWithRetries gen ctx).1).isQualityTooLow = false :=
  retryAux_no_qtl gen ctx MAX_RETRIES 1 none (by simp [MAX_RETRIES]) (by simp [MAX_RETRIES])

theorem retryAux_no_error_of_last_ok {ε : Type} (gen : Nat → Except ε String) (ctx : String)
    {t : String} (hlast : gen MAX_RETRIES = .ok t) :
    ∀ (remaining attempt : Nat) (best : Option AttemptRecord),
      attempt + remaining = MAX_RETRIES + 1 → 1 ≤ remaining →
      ((retryAux gen ctx remaining attempt best).1).isError = false := by
  intro remaining
  induction remaining with
  | zero => intro attempt best _ h; omega
  | succ r ih =>
    intro attempt best hinv _
    simp only [MAX_RETRIES] at hinv
    rcases hg : gen attempt with e | plan
    · by_cases ha : (attempt == MAX_RETRIES) = true
      · exfalso
        have h3 : attempt = MAX_RETRIES := by simpa using ha
        rw [h3, hlast] at hg
        cases hg
      · rcases r with _ | r'
        · exfalso
          have h3 : attempt = 3 := by omega
          simp [MAX_RETRIES, h3] at ha
        · simp only [retryAux, hg, ha, Bool.false_eq_true, if_false]
          exact ih (attempt + 1) best (by simp [MAX_RETRIES]; omega) (by omega)
    · simp only [retryAux, hg]
      by_cases hacc : MIN_QUALITY_SCORE ≤ (validateCurriculumCompliance plan).score ∧
          (validateCurriculumCompliance plan).hasRequiredElements = true
      · simp [hacc, RetryResult.isError]
      · simp only [if_neg hacc]
        rcases r with _ | r'
        · rcases best with _ | b
          · simp [retryAux, updateBest, RetryResult.isError]
          · simp only [retryAux, updateBest]
            split_ifs <;> simp [RetryResult.isError]
        · exact ih (attempt + 1) (updateBest best plan) (by simp [MAX_RETRIES]; omega) (by omega)

/-- Claim C1 (amended): whenever the final attempt's generation call
resolves (in particular whenever an attempt produced text and the run does
not end in a final-attempt rejection), `generatePlanWithRetries` never
surfaces an error: it returns an accepted plan or the best-by-score
record.  A rejection on the final attempt, however, is propagated even
when an earlier attempt produced validated text (see the
counterexample). -/
theorem claim_c1 {ε : Type} (gen : Nat → Except ε String) (ctx : String)
    (h : ∃ t, gen MAX_RETRIES = Except.ok t) :
    ((generatePlanWithRetries gen ctx).1).isError = false := by
  obtain ⟨t, ht⟩ := h
  exact retryAux_no_error_of_last_ok gen ctx ht MAX_RETRIES 1 none
    (by simp [MAX_RETRIES]) (by simp [MAX_RETRIES])

/-- Counterexample to claim C1 as stated: attempt 1 produces text that is
validated (score 0.3), attempts 2 and 3 reject; the controller surfaces
the final rejection as an error instead of returning the recorded
best-by-score attempt. -/
theorem counterexample_c1 :
    (generatePlanWithRetries genTextThenFail "").1 = .genFailure "fel" ∧
    ((generatePlanWithRetries genTextThenFail "").1).isError = true ∧
    (validateCurriculumCompliance planA).score = 3/10 := by
  have h1 : genTextThenFail 1 = .ok planA := rfl
  have h2 : genTextThenFail 2 = .error "fel" := rfl
  have h3 : genTextThenFail 3 = .error "fel" := rfl
  have hrun : generatePlanWithRetries genTextThenFail "" = (.genFailure "fel", 3) := by
    simp [generatePlanWithRetries, MAX_RETRIES, retryAux, h1, h2, h3, updateBest,
          min_quality_not_le, validate_planA_score]
  exact ⟨by rw [hrun], by rw [hrun]; rfl, validate_planA_score⟩

/-- Witness for claim C1: the amended claim instantiated at a stub whose
final attempt resolves. -/
theorem claim_c1_witness :
    ((generatePlanWithRetries genAlwaysOkA "").1).isError = false :=
  claim_c1 genAlwaysOkA "" ⟨planA, rfl⟩

theorem accProps_id : AccProps (fun a => a) :=
  ⟨fun _ => le_refl _, fun _ _ => rfl, fun _ h => h⟩

theorem accProps_ite (P : Prop) [Decidable P] (δ : ℚ) (hδ : 0 ≤ δ) :
    AccProps (fun a => if P then (a.1 + δ, a.2 + 1) else a) := by
  by_cases h : P
  · simp only [if_pos h]
    refine ⟨fun a => ?_, fun a ha => ?_, fun a ha => ?_⟩
    · simp
    · exfalso
      simp only at ha
      omega
    · simp only
      linarith
  · simp only [if_neg h]
    exact accProps_id

theorem accProps_foldl {α : Type} (g : ℚ × Nat → α → ℚ × Nat) (l : List α)
    (hg : ∀ x ∈ l, AccProps (fun a => g a x)) : AccProps (fun a => l.foldl g a) := by
  induction l with
  | nil => exact ⟨fun _ => le_refl _, fun _ _ => rfl, fun _ h => h⟩
  | cons x xs ih =>
    obtain ⟨hx1, hx2, hx3⟩ := hg x (List.mem_cons_self x xs)
    obtain ⟨hf1, hf2, hf3⟩ := ih (fun y hy => hg y (List.mem_cons_of_mem x hy))
    refine ⟨fun a => ?_, fun a h => ?_, fun a h => ?_⟩
    · show a.2 ≤ ((x :: xs).foldl g a).2
      rw [List.foldl_cons]
      exact le_trans (hx1 a) (hf1 (g a x))
    · show (x :: xs).foldl g a = a
      have h' : ((x :: xs).foldl g a).2 = a.2 := h
      rw [List.foldl_cons] at h' ⊢
      have hgx : (g a x).2 = a.2 :=
        le_antisymm (by rw [← h']; exact hf1 (g a x)) (hx1 a)
      have hgx2 : g a x = a := hx2 a hgx
      rw [hgx2] at h' ⊢
      exact hf2 a h'
    · show 0 ≤ ((x :: xs).foldl g a).1
      rw [List.foldl_cons]
      exact hf3 _ (hx3 a h)

theorem foldl_id_of_steps {α β : Type} (g : β → α → β) (l : List α)
    (hg : ∀ a x, x ∈ l → g a x = a) (a : β) : l.foldl g a = a := by
  induction l generalizing a with
  | nil => rfl
  | cons x xs ih =>
    rw [List.foldl_cons, hg a x (List.mem_cons_self x xs)]
    exact ih (fun b y hy => hg b y (List.mem_cons_of_mem x hy)) a

theorem foldl_add_of_steps {α : Type} (g : ℚ × Nat → α → ℚ × Nat) (l : List α)
    (δ : ℚ) (d : Nat)
    (hg : ∀ a x, x ∈ l → g a x = (a.1 + δ, a.2 + d)) (a : ℚ × Nat) :
    l.foldl g a = (a.1 + l.length * δ, a.2 + l.length * d) := by
  induction l generalizing a with
  | nil => simp
  | cons x xs ih =>
    rw [List.foldl_cons, hg a x (List.mem_cons_self x xs),
        ih (fun b y hy => hg b y (List.mem_cons_of_mem x hy))]
    refine Prod.ext ?_ ?_
    · simp only [List.length_cons]
      push_cast
      ring
    · simp only [List.length_cons]
      ring

theorem accProps_themeKwLoop (tws : List (List Char)) (kws : List String) :
    AccProps (themeKwLoop tws kws) :=
  accProps_foldl _ _ (fun _ _ => accProps_foldl _ _ (fun _ _ => accProps_ite _ 1 (by norm_num)))

theorem accProps_themeContentLoop (tws : List (List Char)) (cl : List Char) :
    AccProps (themeContentLoop tws cl) :=
  accProps_foldl _ _ (fun _ _ => accProps_ite _ (1/2) (by norm_num))

theorem accProps_themeTagLoop (tws : List (List Char)) (tags : List String) :
    AccProps (themeTagLoop tws tags) :=
  accProps_foldl _ _ (fun _ _ => accProps_foldl _ _ (fun _ _ => accProps_ite _ (7/10) (by norm_num)))

theorem accProps_themeAssocLoop (tws : List (List Char)) (document : CurriculumDocument)
    (cl : List Char) : AccProps (themeAssocLoop tws document cl) := by
  apply accProps_foldl
  intro tw _
  rcases hl : List.lookup (String.mk tw) themeAssociations with _ | assocs
  · simp only [hl]
    exact accProps_id
  · simp only [hl]
    exact accProps_foldl _ _ (fun _ _ => accProps_ite _ (3/10) (by norm_num))

theorem accProps_chain4 {f1 f2 f3 f4 : ℚ × Nat → ℚ × Nat}
    (h1 : AccProps f1) (h2 : AccProps f2) (h3 : AccProps f3) (h4 : AccProps f4) :
    0 ≤ (f4 (f3 (f2 (f1 (0, 0))))).1 ∧
    ((f4 (f3 (f2 (f1 (0, 0))))).2 = 0 → (f4 (f3 (f2 (f1 (0, 0))))).1 = 0) := by
  obtain ⟨h11, h12, h13⟩ := h1
  obtain ⟨h21, h22, h23⟩ := h2
  obtain ⟨h31, h32, h33⟩ := h3
  obtain ⟨h41, h42, h43⟩ := h4
  constructor
  · exact h43 _ (h33 _ (h23 _ (h13 (0, 0) le_rfl)))
  · intro hz
    have m2 := h21 (f1 (0, 0))
    have m3 := h31 (f2 (f1 (0, 0)))
    have m4 := h41 (f3 (f2 (f1 (0, 0))))
    have z3 : (f3 (f2 (f1 (0, 0)))).2 = 0 := by omega
    have z2 : (f2 (f1 (0, 0))).2 = 0 := by omega
    have z1 : (f1 (0, 0)).2 = 0 := by omega
    have e1 : f1 (0, 0) = (0, 0) := h12 (0, 0) z1
    have e2 : f2 (f1 (0, 0)) = f1 (0, 0) := h22 _ (by omega)
    have e3 : f3 (f2 (f1 (0, 0))) = f2 (f1 (0, 0)) := h32 _ (by omega)
    have e4 : f4 (f3 (f2 (f1 (0, 0)))) = f3 (f2 (f1 (0, 0))) := h42 _ (by omega)
    rw [e4, e3, e2, e1]

theorem themeAcc_nonneg_and_zero (theme : String) (document : CurriculumDocument) :
    0 ≤ (themeAcc theme document).1 ∧
    ((themeAcc theme document).2 = 0 → (themeAcc theme document).1 = 0) :=
  accProps_chain4 (accProps_themeKwLoop (splitWs (low theme)) document.keywords)
    (accProps_themeContentLoop (splitWs (low theme)) (low document.content))
    (accProps_themeTagLoop (splitWs (low theme)) document.conceptTags)
    (accProps_themeAssocLoop (splitWs (low theme)) document (low document.content))

/-- Core properties of the total (own-property) model of the theme scorer:
the score equals the accumulated match weight divided by max(hit count,
1), clamped to [0, 1], and zero lexical overlap with no own-table hit
gives exactly 0. -/
theorem themeRelevance_props (theme : String) (document : CurriculumDocument) :
    (calculateThemeRelevance theme document =
       qMin ((themeAcc theme document).1 / qMax ((themeAcc theme document).2 : ℚ) 1) 1 ∧
     0 ≤ calculateThemeRelevance theme document ∧
     calculateThemeRelevance theme document ≤ 1) ∧
    ((∀ themeWord ∈ splitWs (low theme),
       (∀ keyword ∈ document.keywords,
          containsB (low keyword) themeWord = false ∧
          containsB themeWord (low keyword) = false) ∧
       containsB (low document.content) themeWord = false ∧
       (∀ tag ∈ document.conceptTags,
          containsB (low tag) themeWord = false ∧
          containsB themeWord (low tag) = false) ∧
       (∀ association ∈ (List.lookup (String.mk themeWord) themeAssociations).getD [],
          document.keywords.any (fun k => containsB (low k) association.toList) = false ∧
          document.conceptTags.any (fun t => containsB (low t) association.toList) = false ∧
          containsB (low document.content) association.toList = false)) →
      calculateThemeRelevance theme document = 0) := by
  obtain ⟨hnn, hz⟩ := themeAcc_nonneg_and_zero theme document
  constructor
  · refine ⟨?_, ?_, ?_⟩
    · by_cases h : 0 < (themeAcc theme document).2
      · simp only [calculateThemeRelevance, if_pos h]
      · simp only [calculateThemeRelevance, if_neg h]
        have h2 : (themeAcc theme document).2 = 0 := by omega
        have h1 : (themeAcc theme document).1 = 0 := hz h2
        rw [h1, h2]
        norm_num [qMin, qMax]
    · by_cases h : 0 < (themeAcc theme document).2
      · simp only [calculateThemeRelevance, if_pos h]
        have hden : (0 : ℚ) < qMax ((themeAcc theme document).2 : ℚ) 1 := by
          unfold qMax
          split_ifs <;> [norm_num; positivity]
        have hx : 0 ≤ (themeAcc theme document).1 / qMax ((themeAcc theme document).2 : ℚ) 1 :=
          div_nonneg hnn (le_of_lt hden)
        unfold qMin
        split_ifs <;> [exact hx; norm_num]
      · simp only [calculateThemeRelevance, if_neg h]
        norm_num
    · by_cases h : 0 < (themeAcc theme document).2
      · simp only [calculateThemeRelevance, if_pos h]
        unfold qMin
        split_ifs with hle
        · exact hle
        · norm_num
      · simp only [calculateThemeRelevance, if_neg h]
        norm_num
  · intro H
    have e1 : themeKwLoop (splitWs (low theme)) document.keywords (0, 0) = (0, 0) := by
      apply foldl_id_of_steps
      intro a kw hkw
      apply foldl_id_of_steps
      intro b tw htw
      obtain ⟨hks, _, _, _⟩ := H tw htw
      obtain ⟨hf1, hf2⟩ := hks kw hkw
      simp [hf1, hf2]
    have e2 : themeContentLoop (splitWs (low theme)) (low document.content) (0, 0) = (0, 0) := by
      apply foldl_id_of_steps
      intro a tw htw
      obtain ⟨_, hcnt, _, _⟩ := H tw htw
      simp [hcnt]
    have e3 : themeTagLoop (splitWs (low theme)) document.conceptTags (0, 0) = (0, 0) := by
      apply foldl_id_of_steps
      intro a tag htag
      apply foldl_id_of_steps
      intro b tw htw
      obtain ⟨_, _, htags, _⟩ := H tw htw
      obtain ⟨hf1, hf2⟩ := htags tag htag
      simp [hf1, hf2]
    have e4 : themeAssocLoop (splitWs (low theme)) document (low document.content) (0, 0) =
        (0, 0) := by
      apply foldl_id_of_steps
      intro a tw htw
      obtain ⟨_, _, _, hassoc⟩ := H tw htw
      rcases hl : List.lookup (String.mk tw) themeAssociations with _ | assocs
      · simp only [hl]
      · simp only [hl]
        apply foldl_id_of_steps
        intro b assoc hassocMem
        have hfacts := hassoc assoc (by rw [hl]; simpa using hassocMem)
        have hcond : (document.keywords.any (fun k => containsB (low k) assoc.toList)
            || document.conceptTags.any (fun t => containsB (low t) assoc.toList)
            || containsB (low document.content) assoc.toList) = false := by
          rw [hfacts.1, hfacts.2.1, hfacts.2.2]
          rfl
        rw [if_neg (fun hC => Bool.false_ne_true (hcond ▸ hC))]
    have hacc : themeAcc theme document = (0, 0) := by
      show themeAssocLoop (splitWs (low theme)) document (low document.content)
        (themeTagLoop (splitWs (low theme)) document.conceptTags
          (themeContentLoop (splitWs (low theme)) (low document.content)
            (themeKwLoop (splitWs (low theme)) document.keywords (0, 0)))) = (0, 0)
      rw [e1, e2, e3, e4]
    simp only [calculateThemeRelevance, hacc]
    norm_num

/-- Claim C5 (amended): provided no lower-cased theme word is an inherited
`Object.prototype` property name (`constructor`, `__proto__`), the theme
scorer returns a score equal to the accumulated match weight divided by
max(hit count, 1), clamped to [0, 1]; and if additionally the topic's
words have no lexical overlap with the document's keywords, body, or
concept tags and no association-table hit, the returned score is exactly
0.  For a topic containing such a property name the source instead throws
a `TypeError` — the inherited property value is truthy but not iterable —
so no score is returned at all. -/
theorem claim_c5 (theme : String) (document : CurriculumDocument) :
    (((splitWs (low theme)).any
        (fun themeWord => inheritedObjectProps.contains (String.mk themeWord)) = false) →
      (calculateThemeRelevanceJS theme document =
         Except.ok (calculateThemeRelevance theme document) ∧
       calculateThemeRelevance theme document =
         qMin ((themeAcc theme document).1 / qMax ((themeAcc theme document).2 : ℚ) 1) 1 ∧
       0 ≤ calculateThemeRelevance theme document ∧
       calculateThemeRelevance theme document ≤ 1) ∧
      ((∀ themeWord ∈ splitWs (low theme),
         (∀ keyword ∈ document.keywords,
            containsB (low keyword) themeWord = false ∧
            containsB themeWord (low keyword) = false) ∧
         containsB (low document.content) themeWord = false ∧
         (∀ tag ∈ document.conceptTags,
            containsB (low tag) themeWord = false ∧
            containsB themeWord (low tag) = false) ∧
         (∀ association ∈ (List.lookup (String.mk themeWord) themeAssociations).getD [],
            document.keywords.any (fun k => containsB (low k) association.toList) = false ∧
            document.conceptTags.any (fun t => containsB (low t) association.toList) = false ∧
            containsB (low document.content) association.toList = false)) →
        calculateThemeRelevanceJS theme document = Except.ok 0)) ∧
    (((splitWs (low theme)).any
        (fun themeWord => inheritedObjectProps.contains (String.mk themeWord)) = true) →
      calculateThemeRelevanceJS theme document =
        Except.error "TypeError: themeAssociations[themeWord] is not iterable") := by
  have hprops := themeRelevance_props theme document
  constructor
  · intro hsafe
    have hok : calculateThemeRelevanceJS theme document =
        Except.ok (calculateThemeRelevance theme document) := by
      simp only [calculateThemeRelevanceJS, hsafe, Bool.false_eq_true, if_false]
    refine ⟨⟨hok, hprops.1⟩, fun H => ?_⟩
    rw [hok, hprops.2 H]
  · intro hbad
    simp only [calculateThemeRelevanceJS, hbad]
    rw [if_pos trivial]

/-- Counterexample to claim C5 as stated: the topic "constructor" has no
lexical overlap with the first corpus document and no own entry in the
association table, yet the program does not return theme score 0 — the
property access hits the inherited `Object.prototype.constructor`, which
is truthy and not iterable, and the `for...of` over it throws a
`TypeError`. -/
theorem counterexample_c5 :
    calculateThemeRelevanceJS "constructor" docAnimals =
      Except.error "TypeError: themeAssociations[themeWord] is not iterable" ∧
    (∀ themeWord ∈ splitWs (low "constructor"),
      (∀ keyword ∈ docAnimals.keywords,
         containsB (low keyword) themeWord = false ∧
         containsB themeWord (low keyword) = false) ∧
      containsB (low docAnimals.content) themeWord = false ∧
      (∀ tag ∈ docAnimals.conceptTags,
         containsB (low tag) themeWord = false ∧
         containsB themeWord (low tag) = false) ∧
      List.lookup (String.mk themeWord) themeAssociations = none) := by
  constructor
  · rfl
  · decide

/-- Witness for claim C5: the safe branch at the topic "qqq" (zero
overlap, no table hit, score 0) and the error branch at a topic
containing the word `__proto__`. -/
theorem claim_c5_witness :
    calculateThemeRelevanceJS "qqq" docAnimals = Except.ok 0 ∧
    calculateThemeRelevanceJS "__proto__ djur" docAnimals =
      Except.error "TypeError: themeAssociations[themeWord] is not iterable" :=
  ⟨((claim_c5 "qqq" docAnimals).1 (by decide)).2 (by decide),
   (claim_c5 "__proto__ djur" docAnimals).2 (by decide)⟩

theorem charLower_ws {c : Char} (h : isWs c = true) : charLower c = c := by
  simp only [isWs, Bool.or_eq_true, decide_eq_true_eq] at h
  rcases h with ⟨⟨⟨⟨h | h⟩ | h⟩ | h⟩ | h⟩ | h <;> rw [h] <;> decide

theorem low_all_ws {topic : String} (h : ∀ c ∈ topic.toList, isWs c = true) :
    ∀ c ∈ low topic, isWs c = true := by
  intro c hc
  rw [low, List.mem_map] at hc
  obtain ⟨c0, hc0, rfl⟩ := hc
  rw [charLower_ws (h c0 hc0)]
  exact h c0 hc0

theorem dropWhile_eq_nil_of_all {l : List Char} {p : Char → Bool}
    (h : ∀ c ∈ l, p c = true) : l.dropWhile p = [] := by
  induction l with
  | nil => rfl
  | cons c rest ih =>
    rw [List.dropWhile_cons, if_pos (h c (List.mem_cons_self c rest))]
    exact ih (fun d hd => h d (List.mem_cons_of_mem c hd))

theorem splitWs_of_all_ws {l : List Char} (h : ∀ c ∈ l, isWs c = true) :
    splitWs l = [[]] ∨ splitWs l = [[], []] := by
  cases l with
  | nil => left; rfl
  | cons c rest =>
    right
    have hc : isWs c = true := h c (List.mem_cons_self c rest)
    have hdrop : rest.dropWhile isWs = [] :=
      dropWhile_eq_nil_of_all (fun d hd => h d (List.mem_cons_of_mem c hd))
    simp [splitWs, splitWsAux, hc, hdrop]



theorem themeKwLoop_all_empty {tws : List (List Char)}
    (htws : ∀ tw ∈ tws, tw = ([] : List Char)) (kws : List String) (a : ℚ × Nat) :
    themeKwLoop tws kws a =
      (a.1 + (kws.length : ℚ) * (tws.length : ℚ), a.2 + kws.length * tws.length) := by
  unfold themeKwLoop
  rw [foldl_add_of_steps _ kws ((tws.length : ℚ)) tws.length ?_ a]
  intro b kw _
  rw [foldl_add_of_steps _ tws 1 1 ?_ b]
  · refine Prod.ext ?_ ?_ <;> simp
  · intro c tw htw
    rw [htws tw htw]
    simp [containsB_nil_needle]

theorem themeContentLoop_all_empty {tws : List (List Char)}
    (htws : ∀ tw ∈ tws, tw = ([] : List Char)) (cl : List Char) (a : ℚ × Nat) :
    themeContentLoop tws cl a =
      (a.1 + (tws.length : ℚ) * (1/2), a.2 + tws.length) := by
  unfold themeContentLoop
  rw [foldl_add_of_steps _ tws (1/2) 1 ?_ a]
  · refine Prod.ext ?_ ?_ <;> simp
  · intro c tw htw
    rw [htws tw htw]
    simp [containsB_nil_needle]

theorem themeTagLoop_all_empty {tws : List (List Char)}
    (htws : ∀ tw ∈ tws, tw = ([] : List Char)) (tags : List String) (a : ℚ × Nat) :
    themeTagLoop tws tags a =
      (a.1 + (tags.length : ℚ) * ((tws.length : ℚ) * (7/10)), a.2 + tags.length * tws.length) := by
  unfold themeTagLoop
  rw [foldl_add_of_steps _ tags ((tws.length : ℚ) * (7/10)) tws.length ?_ a]
  intro b tag _
  rw [foldl_add_of_steps _ tws (7/10) 1 ?_ b]
  · refine Prod.ext ?_ ?_ <;> simp
  · intro c tw htw
    rw [htws tw htw]
    simp [containsB_nil_needle]

theorem lookup_empty_none : List.lookup (String.mk ([] : List Char)) themeAssociations = none := by
  decide

theorem themeAssocLoop_all_empty {tws : List (List Char)}
    (htws : ∀ tw ∈ tws, tw = ([] : List Char)) (document : CurriculumDocument)
    (cl : List Char) (a : ℚ × Nat) :
    themeAssocLoop tws document cl a = a := by
  unfold themeAssocLoop
  apply foldl_id_of_steps
  intro b tw htw
  rw [htws tw htw, lookup_empty_none]



theorem c10_core (topic : String) (document : CurriculumDocument) (m : Nat) (hm : 1 ≤ m)
    (hfst : (themeAcc topic document).1 =
      (m : ℚ) * ((document.keywords.length : ℚ) + 1/2 +
        (7/10) * (document.conceptTags.length : ℚ)))
    (hsnd : (themeAcc topic document).2 =
      document.keywords.length * m + m + document.conceptTags.length * m) :
    calculateThemeRelevance topic document =
      ((document.keywords.length : ℚ) + 1/2 + (7/10) * (document.conceptTags.length : ℚ)) /
        ((document.keywords.length : ℚ) + 1 + (document.conceptTags.length : ℚ)) ∧
    0 < calculateThemeRelevance topic document := by
  have hK : (0 : ℚ) ≤ (document.keywords.length : ℚ) := Nat.cast_nonneg _
  have hT : (0 : ℚ) ≤ (document.conceptTags.length : ℚ) := Nat.cast_nonneg _
  have hden : (0 : ℚ) < (document.keywords.length : ℚ) + 1 + (document.conceptTags.length : ℚ) := by
    linarith
  have hnum : (0 : ℚ) < (document.keywords.length : ℚ) + 1/2 +
      (7/10) * (document.conceptTags.length : ℚ) := by linarith
  have hpos2 : 0 < (themeAcc topic document).2 := by
    rw [hsnd]
    have : 1 ≤ m := hm
    omega
  have hsndQ : (((themeAcc topic document).2 : Nat) : ℚ) =
      (m : ℚ) * ((document.keywords.length : ℚ) + 1 + (document.conceptTags.length : ℚ)) := by
    rw [hsnd]
    push_cast
    ring
  have hmQ : (1 : ℚ) ≤ (m : ℚ) := by exact_mod_cast hm
  have heq : calculateThemeRelevance topic document =
      ((document.keywords.length : ℚ) + 1/2 + (7/10) * (document.conceptTags.length : ℚ)) /
        ((document.keywords.length : ℚ) + 1 + (document.conceptTags.length : ℚ)) := by
    simp only [calculateThemeRelevance, if_pos hpos2]
    rw [hfst, hsndQ]
    have h1le : (1 : ℚ) ≤ (m : ℚ) *
        ((document.keywords.length : ℚ) + 1 + (document.conceptTags.length : ℚ)) := by
      nlinarith
    have hqmax : qMax ((m : ℚ) *
        ((document.keywords.length : ℚ) + 1 + (document.conceptTags.length : ℚ))) 1 =
        (m : ℚ) * ((document.keywords.length : ℚ) + 1 + (document.conceptTags.length : ℚ)) := by
      unfold qMax
      split_ifs with hx
      · linarith
      · rfl
    rw [hqmax, mul_div_mul_left _ _ (by linarith : (m : ℚ) ≠ 0)]
    have hratio : ((document.keywords.length : ℚ) + 1/2 +
        (7/10) * (document.conceptTags.length : ℚ)) /
        ((document.keywords.length : ℚ) + 1 + (document.conceptTags.length : ℚ)) ≤ 1 := by
      rw [div_le_one hden]
      linarith
    unfold qMin
    rw [if_pos hratio]
  refine ⟨heq, ?_⟩
  rw [heq]
  exact div_pos hnum hden

/-- Claim C10: for a topic string that is empty or consists only of
whitespace, splitting yields the empty-string theme word, which is a
substring of every keyword, the body, and every concept tag, so
`calculateThemeRelevance` returns a strictly positive theme score for
every document (never 0), equal to (k + 0.5 + 0.7·t) / (k + 1 + t) where
k is the keyword count and t the concept-tag count. -/
theorem claim_c10 (topic : String) (document : CurriculumDocument)
    (h : ∀ c ∈ topic.toList, isWs c = true) :
    calculateThemeRelevance topic document =
      ((document.keywords.length : ℚ) + 1/2 + (7/10) * (document.conceptTags.length : ℚ)) /
        ((document.keywords.length : ℚ) + 1 + (document.conceptTags.length : ℚ)) ∧
    0 < calculateThemeRelevance topic document := by
  rcases splitWs_of_all_ws (low_all_ws h) with hsp | hsp
  · have e : themeAcc topic document =
        themeAssocLoop [[]] document (low document.content)
          (themeTagLoop [[]] document.conceptTags
            (themeContentLoop [[]] (low document.content)
              (themeKwLoop [[]] document.keywords (0, 0)))) := by
      show themeAssocLoop (splitWs (low topic)) document (low document.content)
          (themeTagLoop (splitWs (low topic)) document.conceptTags
            (themeContentLoop (splitWs (low topic)) (low document.content)
              (themeKwLoop (splitWs (low topic)) document.keywords (0, 0)))) = _
      rw [hsp]
    rw [themeKwLoop_all_empty (by simp), themeContentLoop_all_empty (by simp),
        themeTagLoop_all_empty (by simp), themeAssocLoop_all_empty (by simp)] at e
    refine c10_core topic document 1 le_rfl ?_ ?_
    · rw [e]
      simp only [List.length_cons, List.length_nil]
      push_cast
      ring
    · rw [e]
      simp only [List.length_cons, List.length_nil]
      ring
  · have e : themeAcc topic document =
        themeAssocLoop [[], []] document (low document.content)
          (themeTagLoop [[], []] document.conceptTags
            (themeContentLoop [[], []] (low document.content)
              (themeKwLoop [[], []] document.keywords (0, 0)))) := by
      show themeAssocLoop (splitWs (low topic)) document (low document.content)
          (themeTagLoop (splitWs (low topic)) document.conceptTags
            (themeContentLoop (splitWs (low topic)) (low document.content)
              (themeKwLoop (splitWs (low topic)) document.keywords (0, 0)))) = _
      rw [hsp]
    rw [themeKwLoop_all_empty (by simp), themeContentLoop_all_empty (by simp),
        themeTagLoop_all_empty (by simp), themeAssocLoop_all_empty (by simp)] at e
    refine c10_core topic document 2 (by norm_num) ?_ ?_
    · rw [e]
      simp only [List.length_cons, List.length_nil]
      push_cast
      ring
    · rw [e]
      simp only [List.length_cons, List.length_nil]
      ring

/-- Witness for claim C10: the whitespace-only topic " " against the first
corpus document. -/
theorem claim_c10_witness :
    calculateThemeRelevance " " docAnimals =
      ((docAnimals.keywords.length : ℚ) + 1/2 + (7/10) * (docAnimals.conceptTags.length : ℚ)) /
        ((docAnimals.keywords.length : ℚ) + 1 + (docAnimals.conceptTags.length : ℚ)) ∧
    0 < calculateThemeRelevance " " docAnimals :=
  claim_c10 " " docAnimals (by decide)




theorem minMerge_none (r : Option Nat) : minMerge none r = r := by cases r <;> rfl

theorem foldl_minDist_eq (g : Int) (grades : List String) :
    ∀ acc : Option Nat,
      grades.foldl (fun minDistance docGrade =>
        match parseIntJS docGrade with
        | some docNumeric =>
          let distance := (g - docNumeric).natAbs
          match minDistance with
          | none => some distance
          | some m => some (min m distance)
        | none => minDistance) acc = minMerge acc (minimumDist g grades) := by
  induction grades with
  | nil =>
    intro acc
    cases acc <;> rfl
  | cons dg rest ih =>
    intro acc
    rw [List.foldl_cons]
    rcases hp : parseIntJS dg with _ | dn
    · simp only [hp]
      rw [ih acc]
      simp only [minimumDist, hp]
    · simp only [hp]
      rcases acc with _ | m
      · rw [ih (some ((g - dn).natAbs))]
        simp only [minimumDist, hp]
        rcases minimumDist g rest with _ | r <;> simp [minMerge]
      · rw [ih (some (min m ((g - dn).natAbs)))]
        simp only [minimumDist, hp]
        rcases minimumDist g rest with _ | r
        · simp [minMerge]
        · simp [minMerge, Nat.min_assoc]

theorem adjacencyScore_mem (grade : String) (grades : List String) :
    adjacencyScore grade grades ∈ ([1, 4/5, 3/5, 2/5, 1/5] : List ℚ) := by
  unfold adjacencyScore
  split_ifs <;> simp

theorem gradeScoreSpec_mem (grade : String) (grades : List String) :
    gradeScoreSpec grade grades ∈ ([1, 4/5, 3/5, 2/5, 1/5] : List ℚ) := by
  by_cases h1 : grades.contains grade
  · simp only [gradeScoreSpec, h1, if_true]
    simp
  · rcases hp : parseIntJS grade with _ | g
    · simp only [gradeScoreSpec, h1, hp, Bool.false_eq_true, if_false]
      exact adjacencyScore_mem grade grades
    · rcases hd : minimumDist g grades with _ | d
      · simp only [gradeScoreSpec, h1, hp, hd, Bool.false_eq_true, if_false]
        exact adjacencyScore_mem grade grades
      · simp only [gradeScoreSpec, h1, hp, hd, Bool.false_eq_true, if_false]
        split_ifs <;> first
          | exact adjacencyScore_mem grade grades
          | simp

/-- Claim C4: for every document D and query grade g, the grade score is in
the discrete set {1.0, 0.8, 0.6, 0.4, 0.2} and never 0, and the source
scorer coincides with the claim-worded decision list `gradeScoreSpec`:
exact membership 1.0; otherwise minimum numeric distance ≤1, ≤2, ≤3 gives
0.8, 0.6, 0.4; the non-numeric lowest grade label and numeric grade "1"
are mutually adjacent at 0.8 in both directions; any other case 0.2. -/
theorem claim_c4 (document : CurriculumDocument) (grade : String) :
    calculatePedagogicalRelevance grade document = gradeScoreSpec grade document.grades ∧
    calculatePedagogicalRelevance grade document ∈ ([1, 4/5, 3/5, 2/5, 1/5] : List ℚ) := by
  have heq : calculatePedagogicalRelevance grade document = gradeScoreSpec grade document.grades := by
    unfold calculatePedagogicalRelevance gradeScoreSpec
    by_cases hc : document.grades.contains grade
    · have hc2 : grade ∈ document.grades := by simpa using hc
      simp [hc, hc2]
    · simp only [hc, Bool.false_eq_true, if_false]
      rcases hp : parseIntJS grade with _ | g
      · simp only [hp]
        rfl
      · simp only [hp]
        rw [foldl_minDist_eq, minMerge_none]
        rcases minimumDist g document.grades with _ | d <;> rfl
  exact ⟨heq, heq ▸ gradeScoreSpec_mem grade document.grades⟩




theorem mem_insertDoc {x y : ScoredDocument} {l : List ScoredDocument} :
    y ∈ insertDoc x l ↔ y = x ∨ y ∈ l := by
  induction l with
  | nil => simp [insertDoc]
  | cons z zs ih =>
    unfold insertDoc
    split_ifs with h
    · simp [List.mem_cons]
    · simp only [List.mem_cons, ih]
      tauto

theorem mem_sortByTotalDesc {y : ScoredDocument} {l : List ScoredDocument} :
    y ∈ sortByTotalDesc l ↔ y ∈ l := by
  induction l with
  | nil => simp [sortByTotalDesc]
  | cons x xs ih => simp [sortByTotalDesc, mem_insertDoc, ih]

theorem RankedBefore_total_le {a b : ScoredDocument} (h : RankedBefore a b) :
    b.totalScore ≤ a.totalScore := by
  rcases h with h | ⟨h, _⟩
  · exact le_of_lt h
  · exact le_of_eq h.symm

theorem insertDoc_pairwise {x : ScoredDocument} {l : List ScoredDocument}
    (hl : l.Pairwise RankedBefore) (hx : ∀ y ∈ l, x.id < y.id) :
    (insertDoc x l).Pairwise RankedBefore := by
  induction l with
  | nil => simp [insertDoc]
  | cons y ys ih =>
    rw [List.pairwise_cons] at hl
    obtain ⟨hy, hys⟩ := hl
    unfold insertDoc
    split_ifs with h
    · rw [List.pairwise_cons]
      refine ⟨?_, by rw [List.pairwise_cons]; exact ⟨hy, hys⟩⟩
      intro z hz
      rcases List.mem_cons.mp hz with rfl | hz2
      · rcases lt_or_eq_of_le h with hlt | heq
        · exact Or.inl hlt
        · exact Or.inr ⟨heq.symm, hx z (List.mem_cons_self z ys)⟩
      · have hzy := RankedBefore_total_le (hy z hz2)
        rcases lt_or_eq_of_le (le_trans hzy h) with hlt | heq
        · exact Or.inl hlt
        · exact Or.inr ⟨heq.symm, hx z (List.mem_cons_of_mem y hz2)⟩
    · rw [List.pairwise_cons]
      refine ⟨?_, ih hys (fun z hz => hx z (List.mem_cons_of_mem y hz))⟩
      intro z hz
      rcases mem_insertDoc.mp hz with rfl | hz2
      · exact Or.inl (lt_of_not_le h)
      · exact hy z hz2

theorem sortByTotalDesc_pairwise {l : List ScoredDocument}
    (hl : l.Pairwise (fun a b => a.id < b.id)) :
    (sortByTotalDesc l).Pairwise RankedBefore := by
  induction l with
  | nil => simp [sortByTotalDesc]
  | cons x xs ih =>
    rw [List.pairwise_cons] at hl
    obtain ⟨hx, hxs⟩ := hl
    unfold sortByTotalDesc
    exact insertDoc_pairwise (ih hxs) (fun y hy => hx y (mem_sortByTotalDesc.mp hy))

theorem curriculumData_pairwise_id :
    curriculumData.Pairwise (fun a b => a.id < b.id) := by decide

theorem mem_find_documents {theme grade : String} {subjects : List String} {d : ScoredDocument}
    (hd : d ∈ (findRelevantCurriculum theme grade subjects).documents) :
    ∃ d0 ∈ curriculumData, d = scoreDocument theme grade subjects d0 ∧
      (2 : ℚ)/5 ≤ calculatePedagogicalRelevance grade d0 ∧
      (3 : ℚ)/10 ≤ d.totalScore := by
  have hdocs : (findRelevantCurriculum theme grade subjects).documents =
      (sortByTotalDesc (((curriculumData.filter (fun doc =>
          decide ((2 : ℚ)/5 ≤ calculatePedagogicalRelevance grade doc))).map
            (scoreDocument theme grade subjects)).filter (fun doc =>
          decide ((3 : ℚ)/10 ≤ doc.totalScore)))).take 4 := rfl
  rw [hdocs] at hd
  have hd1 := mem_sortByTotalDesc.mp (List.mem_of_mem_take hd)
  obtain ⟨hd2, htot⟩ := List.mem_filter.mp hd1
  obtain ⟨d0, hd0mem, hd0eq⟩ := List.mem_map.mp hd2
  obtain ⟨hd0c, hped⟩ := List.mem_filter.mp hd0mem
  exact ⟨d0, hd0c, hd0eq.symm, of_decide_eq_true hped, of_decide_eq_true htot⟩

/-- Claim C3: for every topic, grade, and subjects input,
`findRelevantCurriculum` returns at most 4 documents; every returned
document has totalScore ≥ 0.3 and grade (pedagogical) score ≥ 0.4; and
the returned list is sorted descending by totalScore with ties broken by
original document id ascending. -/
theorem claim_c3 (theme grade : String) (subjects : List String) :
    (findRelevantCurriculum theme grade subjects).documents.length ≤ 4 ∧
    (findRelevantCurriculum theme grade subjects).documents.Forall
      (fun d => (3 : ℚ)/10 ≤ d.totalScore ∧ (2 : ℚ)/5 ≤ d.pedagogicalScore) ∧
    (findRelevantCurriculum theme grade subjects).documents.Pairwise RankedBefore := by
  have hdocs : (findRelevantCurriculum theme grade subjects).documents =
      (sortByTotalDesc (((curriculumData.filter (fun doc =>
          decide ((2 : ℚ)/5 ≤ calculatePedagogicalRelevance grade doc))).map
            (scoreDocument theme grade subjects)).filter (fun doc =>
          decide ((3 : ℚ)/10 ≤ doc.totalScore)))).take 4 := rfl
  refine ⟨?_, ?_, ?_⟩
  · rw [hdocs, List.length_take]
    exact min_le_left _ _
  · rw [List.forall_iff_forall_mem]
    intro d hd
    obtain ⟨d0, _, hdeq, hped, htot⟩ := mem_find_documents hd
    refine ⟨htot, ?_⟩
    rw [hdeq]
    exact hped
  · rw [hdocs]
    apply List.Pairwise.sublist (List.take_sublist _ _)
    apply sortByTotalDesc_pairwise
    apply List.Pairwise.filter
    rw [List.pairwise_map]
    exact (curriculumData_pairwise_id.filter _).imp (fun h => h)

/-- Claim C9: `findRelevantCurriculum` never mutates the module-level
`curriculumData` store: scored documents are fresh copies whose base
fields coincide with a stored document (mutation is inexpressible in the
pure embedding; the meaningful content is that every returned document's
underlying record is literally one of the stored records, with only the
four score fields added). -/
theorem claim_c9 (theme grade : String) (subjects : List String) :
    (findRelevantCurriculum theme grade subjects).documents.Forall
      (fun d => d.toCurriculumDocument ∈ curriculumData) := by
  rw [List.forall_iff_forall_mem]
  intro d hd
  obtain ⟨d0, hd0, hdeq, _, _⟩ := mem_find_documents hd
  rw [hdeq]
  exact hd0

end Skooli
